import Mathlib

/-!
# V4L2 ABI header (`contrib/freebsd/include/linux/videodev2.h`)

A shallow embedding of the value-computing macros of the header and the
numeric tables they generate.  C `uint32_t` values are natural numbers kept
below `2 ^ 32` by explicit reduction; C truth values are integers tested
against zero; enumerators are natural-number constants carrying the
header's names.
-/

namespace V4l2

/-! ## FOURCC constructors (header lines 111-114) -/

/-- The cast `(uint32_t)(x)` of a non-negative integer value. -/
def u32 (x : Nat) : Nat := x % 2 ^ 32

/-- Left shift of a `uint32_t` operand: the result is reduced modulo `2 ^ 32`. -/
def shl32 (x n : Nat) : Nat := (x <<< n) % 2 ^ 32

/-- The macro `v4l2_fourcc(a, b, c, d)`:
`((uint32_t)(a) | ((uint32_t)(b) << 8) | ((uint32_t)(c) << 16) | ((uint32_t)(d) << 24))`. -/
def v4l2_fourcc (a b c d : Nat) : Nat :=
  u32 a ||| shl32 (u32 b) 8 ||| shl32 (u32 c) 16 ||| shl32 (u32 d) 24

/-- The macro `v4l2_fourcc_be(a, b, c, d)`: `(v4l2_fourcc(a, b, c, d) | (1 << 31))`.
The `int` operand `1 << 31` is converted to `uint32_t` by the usual arithmetic
conversions, which gives the bit pattern `0x80000000`. -/
def v4l2_fourcc_be (a b c d : Nat) : Nat :=
  v4l2_fourcc a b c d ||| u32 (1 <<< 31)

/-! ## Pixel-format and SDR-format table (header lines 511-692) -/

/-- One `#define` row of the format table: the macro name, whether the row is
written with `v4l2_fourcc_be` (otherwise `v4l2_fourcc`), and the four character
literals passed to the constructor. -/
structure FourccDef where
  name : String
  be : Bool
  a : Char
  b : Char
  c : Char
  d : Char
  deriving Repr, DecidableEq

/-- The value a table row expands to: a C character literal is an `int`
holding the character code. -/
def FourccDef.code (f : FourccDef) : Nat :=
  if f.be then v4l2_fourcc_be f.a.toNat f.b.toNat f.c.toNat f.d.toNat
  else v4l2_fourcc f.a.toNat f.b.toNat f.c.toNat f.d.toNat

/-- RGB formats (header lines 514-534). -/
def fourcc_rgb : List FourccDef := [
  FourccDef.mk "V4L2_PIX_FMT_RGB332" false 'R' 'G' 'B' '1',
  FourccDef.mk "V4L2_PIX_FMT_RGB444" false 'R' '4' '4' '4',
  FourccDef.mk "V4L2_PIX_FMT_ARGB444" false 'A' 'R' '1' '2',
  FourccDef.mk "V4L2_PIX_FMT_XRGB444" false 'X' 'R' '1' '2',
  FourccDef.mk "V4L2_PIX_FMT_RGB555" false 'R' 'G' 'B' 'O',
  FourccDef.mk "V4L2_PIX_FMT_ARGB555" false 'A' 'R' '1' '5',
  FourccDef.mk "V4L2_PIX_FMT_XRGB555" false 'X' 'R' '1' '5',
  FourccDef.mk "V4L2_PIX_FMT_RGB565" false 'R' 'G' 'B' 'P',
  FourccDef.mk "V4L2_PIX_FMT_RGB555X" false 'R' 'G' 'B' 'Q',
  FourccDef.mk "V4L2_PIX_FMT_ARGB555X" true 'A' 'R' '1' '5',
  FourccDef.mk "V4L2_PIX_FMT_XRGB555X" true 'X' 'R' '1' '5',
  FourccDef.mk "V4L2_PIX_FMT_RGB565X" false 'R' 'G' 'B' 'R',
  FourccDef.mk "V4L2_PIX_FMT_BGR666" false 'B' 'G' 'R' 'H',
  FourccDef.mk "V4L2_PIX_FMT_BGR24" false 'B' 'G' 'R' '3',
  FourccDef.mk "V4L2_PIX_FMT_RGB24" false 'R' 'G' 'B' '3',
  FourccDef.mk "V4L2_PIX_FMT_BGR32" false 'B' 'G' 'R' '4',
  FourccDef.mk "V4L2_PIX_FMT_ABGR32" false 'A' 'R' '2' '4',
  FourccDef.mk "V4L2_PIX_FMT_XBGR32" false 'X' 'R' '2' '4',
  FourccDef.mk "V4L2_PIX_FMT_RGB32" false 'R' 'G' 'B' '4',
  FourccDef.mk "V4L2_PIX_FMT_ARGB32" false 'B' 'A' '2' '4',
  FourccDef.mk "V4L2_PIX_FMT_XRGB32" false 'B' 'X' '2' '4']

/-- Grey formats (header lines 537-543). -/
def fourcc_grey : List FourccDef := [
  FourccDef.mk "V4L2_PIX_FMT_GREY" false 'G' 'R' 'E' 'Y',
  FourccDef.mk "V4L2_PIX_FMT_Y4" false 'Y' '0' '4' ' ',
  FourccDef.mk "V4L2_PIX_FMT_Y6" false 'Y' '0' '6' ' ',
  FourccDef.mk "V4L2_PIX_FMT_Y10" false 'Y' '1' '0' ' ',
  FourccDef.mk "V4L2_PIX_FMT_Y12" false 'Y' '1' '2' ' ',
  FourccDef.mk "V4L2_PIX_FMT_Y16" false 'Y' '1' '6' ' ',
  FourccDef.mk "V4L2_PIX_FMT_Y16_BE" true 'Y' '1' '6' ' ']

/-- Grey bit-packed formats (header lines 546-546). -/
def fourcc_grey_packed : List FourccDef := [
  FourccDef.mk "V4L2_PIX_FMT_Y10BPACK" false 'Y' '1' '0' 'B']

/-- Palette formats (header lines 549-549). -/
def fourcc_palette : List FourccDef := [
  FourccDef.mk "V4L2_PIX_FMT_PAL8" false 'P' 'A' 'L' '8']

/-- Chrominance formats (header lines 552-552). -/
def fourcc_chrominance : List FourccDef := [
  FourccDef.mk "V4L2_PIX_FMT_UV8" false 'U' 'V' '8' ' ']

/-- Luminance+Chrominance formats (header lines 555-573). -/
def fourcc_luma_chroma : List FourccDef := [
  FourccDef.mk "V4L2_PIX_FMT_YVU410" false 'Y' 'V' 'U' '9',
  FourccDef.mk "V4L2_PIX_FMT_YVU420" false 'Y' 'V' '1' '2',
  FourccDef.mk "V4L2_PIX_FMT_YUYV" false 'Y' 'U' 'Y' 'V',
  FourccDef.mk "V4L2_PIX_FMT_YYUV" false 'Y' 'Y' 'U' 'V',
  FourccDef.mk "V4L2_PIX_FMT_YVYU" false 'Y' 'V' 'Y' 'U',
  FourccDef.mk "V4L2_PIX_FMT_UYVY" false 'U' 'Y' 'V' 'Y',
  FourccDef.mk "V4L2_PIX_FMT_VYUY" false 'V' 'Y' 'U' 'Y',
  FourccDef.mk "V4L2_PIX_FMT_YUV422P" false '4' '2' '2' 'P',
  FourccDef.mk "V4L2_PIX_FMT_YUV411P" false '4' '1' '1' 'P',
  FourccDef.mk "V4L2_PIX_FMT_Y41P" false 'Y' '4' '1' 'P',
  FourccDef.mk "V4L2_PIX_FMT_YUV444" false 'Y' '4' '4' '4',
  FourccDef.mk "V4L2_PIX_FMT_YUV555" false 'Y' 'U' 'V' 'O',
  FourccDef.mk "V4L2_PIX_FMT_YUV565" false 'Y' 'U' 'V' 'P',
  FourccDef.mk "V4L2_PIX_FMT_YUV32" false 'Y' 'U' 'V' '4',
  FourccDef.mk "V4L2_PIX_FMT_YUV410" false 'Y' 'U' 'V' '9',
  FourccDef.mk "V4L2_PIX_FMT_YUV420" false 'Y' 'U' '1' '2',
  FourccDef.mk "V4L2_PIX_FMT_HI240" false 'H' 'I' '2' '4',
  FourccDef.mk "V4L2_PIX_FMT_HM12" false 'H' 'M' '1' '2',
  FourccDef.mk "V4L2_PIX_FMT_M420" false 'M' '4' '2' '0']

/-- Two planes -- one Y, one Cr + Cb interleaved (header lines 576-581). -/
def fourcc_two_planes : List FourccDef := [
  FourccDef.mk "V4L2_PIX_FMT_NV12" false 'N' 'V' '1' '2',
  FourccDef.mk "V4L2_PIX_FMT_NV21" false 'N' 'V' '2' '1',
  FourccDef.mk "V4L2_PIX_FMT_NV16" false 'N' 'V' '1' '6',
  FourccDef.mk "V4L2_PIX_FMT_NV61" false 'N' 'V' '6' '1',
  FourccDef.mk "V4L2_PIX_FMT_NV24" false 'N' 'V' '2' '4',
  FourccDef.mk "V4L2_PIX_FMT_NV42" false 'N' 'V' '4' '2']

/-- Two non contiguous planes - one Y, one Cr + Cb interleaved (header lines 584-589). -/
def fourcc_two_planes_noncontig : List FourccDef := [
  FourccDef.mk "V4L2_PIX_FMT_NV12M" false 'N' 'M' '1' '2',
  FourccDef.mk "V4L2_PIX_FMT_NV21M" false 'N' 'M' '2' '1',
  FourccDef.mk "V4L2_PIX_FMT_NV16M" false 'N' 'M' '1' '6',
  FourccDef.mk "V4L2_PIX_FMT_NV61M" false 'N' 'M' '6' '1',
  FourccDef.mk "V4L2_PIX_FMT_NV12MT" false 'T' 'M' '1' '2',
  FourccDef.mk "V4L2_PIX_FMT_NV12MT_16X16" false 'V' 'M' '1' '2']

/-- Three non contiguous planes - Y, Cb, Cr (header lines 592-593). -/
def fourcc_three_planes_noncontig : List FourccDef := [
  FourccDef.mk "V4L2_PIX_FMT_YUV420M" false 'Y' 'M' '1' '2',
  FourccDef.mk "V4L2_PIX_FMT_YVU420M" false 'Y' 'M' '2' '1']

/-- Bayer formats (header lines 596-623). -/
def fourcc_bayer : List FourccDef := [
  FourccDef.mk "V4L2_PIX_FMT_SBGGR8" false 'B' 'A' '8' '1',
  FourccDef.mk "V4L2_PIX_FMT_SGBRG8" false 'G' 'B' 'R' 'G',
  FourccDef.mk "V4L2_PIX_FMT_SGRBG8" false 'G' 'R' 'B' 'G',
  FourccDef.mk "V4L2_PIX_FMT_SRGGB8" false 'R' 'G' 'G' 'B',
  FourccDef.mk "V4L2_PIX_FMT_SBGGR10" false 'B' 'G' '1' '0',
  FourccDef.mk "V4L2_PIX_FMT_SGBRG10" false 'G' 'B' '1' '0',
  FourccDef.mk "V4L2_PIX_FMT_SGRBG10" false 'B' 'A' '1' '0',
  FourccDef.mk "V4L2_PIX_FMT_SRGGB10" false 'R' 'G' '1' '0',
  FourccDef.mk "V4L2_PIX_FMT_SBGGR10P" false 'p' 'B' 'A' 'A',
  FourccDef.mk "V4L2_PIX_FMT_SGBRG10P" false 'p' 'G' 'A' 'A',
  FourccDef.mk "V4L2_PIX_FMT_SGRBG10P" false 'p' 'g' 'A' 'A',
  FourccDef.mk "V4L2_PIX_FMT_SRGGB10P" false 'p' 'R' 'A' 'A',
  FourccDef.mk "V4L2_PIX_FMT_SBGGR10ALAW8" false 'a' 'B' 'A' '8',
  FourccDef.mk "V4L2_PIX_FMT_SGBRG10ALAW8" false 'a' 'G' 'A' '8',
  FourccDef.mk "V4L2_PIX_FMT_SGRBG10ALAW8" false 'a' 'g' 'A' '8',
  FourccDef.mk "V4L2_PIX_FMT_SRGGB10ALAW8" false 'a' 'R' 'A' '8',
  FourccDef.mk "V4L2_PIX_FMT_SBGGR10DPCM8" false 'b' 'B' 'A' '8',
  FourccDef.mk "V4L2_PIX_FMT_SGBRG10DPCM8" false 'b' 'G' 'A' '8',
  FourccDef.mk "V4L2_PIX_FMT_SGRBG10DPCM8" false 'B' 'D' '1' '0',
  FourccDef.mk "V4L2_PIX_FMT_SRGGB10DPCM8" false 'b' 'R' 'A' '8',
  FourccDef.mk "V4L2_PIX_FMT_SBGGR12" false 'B' 'G' '1' '2',
  FourccDef.mk "V4L2_PIX_FMT_SGBRG12" false 'G' 'B' '1' '2',
  FourccDef.mk "V4L2_PIX_FMT_SGRBG12" false 'B' 'A' '1' '2',
  FourccDef.mk "V4L2_PIX_FMT_SRGGB12" false 'R' 'G' '1' '2',
  FourccDef.mk "V4L2_PIX_FMT_SBGGR16" false 'B' 'Y' 'R' '2']

/-- HSV formats (header lines 626-627). -/
def fourcc_hsv : List FourccDef := [
  FourccDef.mk "V4L2_PIX_FMT_HSV24" false 'H' 'S' 'V' '3',
  FourccDef.mk "V4L2_PIX_FMT_HSV32" false 'H' 'S' 'V' '4']

/-- Compressed formats (header lines 630-644). -/
def fourcc_compressed : List FourccDef := [
  FourccDef.mk "V4L2_PIX_FMT_MJPEG" false 'M' 'J' 'P' 'G',
  FourccDef.mk "V4L2_PIX_FMT_JPEG" false 'J' 'P' 'E' 'G',
  FourccDef.mk "V4L2_PIX_FMT_DV" false 'd' 'v' 's' 'd',
  FourccDef.mk "V4L2_PIX_FMT_MPEG" false 'M' 'P' 'E' 'G',
  FourccDef.mk "V4L2_PIX_FMT_H264" false 'H' '2' '6' '4',
  FourccDef.mk "V4L2_PIX_FMT_H264_NO_SC" false 'A' 'V' 'C' '1',
  FourccDef.mk "V4L2_PIX_FMT_H264_MVC" false 'M' '2' '6' '4',
  FourccDef.mk "V4L2_PIX_FMT_H263" false 'H' '2' '6' '3',
  FourccDef.mk "V4L2_PIX_FMT_MPEG1" false 'M' 'P' 'G' '1',
  FourccDef.mk "V4L2_PIX_FMT_MPEG2" false 'M' 'P' 'G' '2',
  FourccDef.mk "V4L2_PIX_FMT_MPEG4" false 'M' 'P' 'G' '4',
  FourccDef.mk "V4L2_PIX_FMT_XVID" false 'X' 'V' 'I' 'D',
  FourccDef.mk "V4L2_PIX_FMT_VC1_ANNEX_G" false 'V' 'C' '1' 'G',
  FourccDef.mk "V4L2_PIX_FMT_VC1_ANNEX_L" false 'V' 'C' '1' 'L',
  FourccDef.mk "V4L2_PIX_FMT_VP8" false 'V' 'P' '8' '0']

/-- Vendor-specific formats (header lines 647-685). -/
def fourcc_vendor : List FourccDef := [
  FourccDef.mk "V4L2_PIX_FMT_CPIA1" false 'C' 'P' 'I' 'A',
  FourccDef.mk "V4L2_PIX_FMT_WNVA" false 'W' 'N' 'V' 'A',
  FourccDef.mk "V4L2_PIX_FMT_SN9C10X" false 'S' '9' '1' '0',
  FourccDef.mk "V4L2_PIX_FMT_SN9C20X_I420" false 'S' '9' '2' '0',
  FourccDef.mk "V4L2_PIX_FMT_PWC1" false 'P' 'W' 'C' '1',
  FourccDef.mk "V4L2_PIX_FMT_PWC2" false 'P' 'W' 'C' '2',
  FourccDef.mk "V4L2_PIX_FMT_ET61X251" false 'E' '6' '2' '5',
  FourccDef.mk "V4L2_PIX_FMT_SPCA501" false 'S' '5' '0' '1',
  FourccDef.mk "V4L2_PIX_FMT_SPCA505" false 'S' '5' '0' '5',
  FourccDef.mk "V4L2_PIX_FMT_SPCA508" false 'S' '5' '0' '8',
  FourccDef.mk "V4L2_PIX_FMT_SPCA561" false 'S' '5' '6' '1',
  FourccDef.mk "V4L2_PIX_FMT_PAC207" false 'P' '2' '0' '7',
  FourccDef.mk "V4L2_PIX_FMT_MR97310A" false 'M' '3' '1' '0',
  FourccDef.mk "V4L2_PIX_FMT_JL2005BCD" false 'J' 'L' '2' '0',
  FourccDef.mk "V4L2_PIX_FMT_SN9C2028" false 'S' 'O' 'N' 'X',
  FourccDef.mk "V4L2_PIX_FMT_SQ905C" false '9' '0' '5' 'C',
  FourccDef.mk "V4L2_PIX_FMT_PJPG" false 'P' 'J' 'P' 'G',
  FourccDef.mk "V4L2_PIX_FMT_OV511" false 'O' '5' '1' '1',
  FourccDef.mk "V4L2_PIX_FMT_OV518" false 'O' '5' '1' '8',
  FourccDef.mk "V4L2_PIX_FMT_STV0680" false 'S' '6' '8' '0',
  FourccDef.mk "V4L2_PIX_FMT_TM6000" false 'T' 'M' '6' '0',
  FourccDef.mk "V4L2_PIX_FMT_CIT_YYVYUY" false 'C' 'I' 'T' 'V',
  FourccDef.mk "V4L2_PIX_FMT_KONICA420" false 'K' 'O' 'N' 'I',
  FourccDef.mk "V4L2_PIX_FMT_JPGL" false 'J' 'P' 'G' 'L',
  FourccDef.mk "V4L2_PIX_FMT_SE401" false 'S' '4' '0' '1',
  FourccDef.mk "V4L2_PIX_FMT_S5C_UYVY_JPG" false 'S' '5' 'C' 'I',
  FourccDef.mk "V4L2_PIX_FMT_QTEC_RGBPP40" false 'Q' '5' '4' '0',
  FourccDef.mk "V4L2_PIX_FMT_QTEC_RGBPP80" false 'Q' '5' '8' '0',
  FourccDef.mk "V4L2_PIX_FMT_QTEC_DISTORTION" false 'Q' 'D' 'I' 'S',
  FourccDef.mk "V4L2_PIX_FMT_QTEC_GREEN8" false 'Q' 'G' '0' '8',
  FourccDef.mk "V4L2_PIX_FMT_QTEC_GREEN16" false 'Q' 'G' '1' '6',
  FourccDef.mk "V4L2_PIX_FMT_QTEC_GREEN16_BE" true 'Q' 'G' '1' '6',
  FourccDef.mk "V4L2_PIX_FMT_BGR48" false 'B' 'G' 'R' '6',
  FourccDef.mk "V4L2_PIX_FMT_RGB48" false 'R' 'G' 'B' '6',
  FourccDef.mk "V4L2_PIX_FMT_QTEC_HRGB" false 'H' 'R' 'G' 'B',
  FourccDef.mk "V4L2_PIX_FMT_QTEC_YRGB" false 'Y' 'R' 'G' 'B',
  FourccDef.mk "V4L2_PIX_FMT_QTEC_BGRH" false 'B' 'G' 'R' 'Q',
  FourccDef.mk "V4L2_PIX_FMT_QTEC_BGRY" false 'B' 'G' 'R' 'Y']

/-- SDR formats - used only for Software Defined Radio devices (header lines 688-692). -/
def fourcc_sdr : List FourccDef := [
  FourccDef.mk "V4L2_SDR_FMT_CU8" false 'C' 'U' '0' '8',
  FourccDef.mk "V4L2_SDR_FMT_CU16LE" false 'C' 'U' '1' '6',
  FourccDef.mk "V4L2_SDR_FMT_CS8" false 'C' 'S' '0' '8',
  FourccDef.mk "V4L2_SDR_FMT_CS14LE" false 'C' 'S' '1' '4',
  FourccDef.mk "V4L2_SDR_FMT_RU12LE" false 'R' 'U' '1' '2']

/-- Every `V4L2_PIX_FMT_*` and `V4L2_SDR_FMT_*` FOURCC row of the header, in
source order. -/
def fourcc_table : List FourccDef :=
  fourcc_rgb ++ fourcc_grey ++ fourcc_grey_packed ++ fourcc_palette ++ fourcc_chrominance ++
  fourcc_luma_chroma ++ fourcc_two_planes ++ fourcc_two_planes_noncontig ++ fourcc_three_planes_noncontig ++
  fourcc_bayer ++ fourcc_hsv ++ fourcc_compressed ++ fourcc_vendor ++ fourcc_sdr

/-- The value of the table row carrying the given macro name. -/
def fourcc_lookup (n : String) : Option Nat :=
  (fourcc_table.find? (fun f => f.name == n)).map FourccDef.code

/-- A printable 7-bit ASCII character (space up to tilde). -/
def printable (c : Char) : Bool := 0x20 ≤ c.toNat && c.toNat ≤ 0x7e

def V4L2_PIX_FMT_ARGB555 : Nat := v4l2_fourcc 'A'.toNat 'R'.toNat '1'.toNat '5'.toNat
def V4L2_PIX_FMT_XRGB555 : Nat := v4l2_fourcc 'X'.toNat 'R'.toNat '1'.toNat '5'.toNat
def V4L2_PIX_FMT_ARGB555X : Nat := v4l2_fourcc_be 'A'.toNat 'R'.toNat '1'.toNat '5'.toNat
def V4L2_PIX_FMT_XRGB555X : Nat := v4l2_fourcc_be 'X'.toNat 'R'.toNat '1'.toNat '5'.toNat
def V4L2_PIX_FMT_Y16 : Nat := v4l2_fourcc 'Y'.toNat '1'.toNat '6'.toNat ' '.toNat
def V4L2_PIX_FMT_Y16_BE : Nat := v4l2_fourcc_be 'Y'.toNat '1'.toNat '6'.toNat ' '.toNat
def V4L2_PIX_FMT_YUYV : Nat := v4l2_fourcc 'Y'.toNat 'U'.toNat 'Y'.toNat 'V'.toNat
def V4L2_PIX_FMT_QTEC_GREEN16 : Nat := v4l2_fourcc 'Q'.toNat 'G'.toNat '1'.toNat '6'.toNat
def V4L2_PIX_FMT_QTEC_GREEN16_BE : Nat :=
  v4l2_fourcc_be 'Q'.toNat 'G'.toNat '1'.toNat '6'.toNat

/-! ## Colorimetry enumerations (header lines 212-388) -/

def V4L2_COLORSPACE_DEFAULT : Nat := 0
def V4L2_COLORSPACE_SMPTE170M : Nat := 1
def V4L2_COLORSPACE_SMPTE240M : Nat := 2
def V4L2_COLORSPACE_REC709 : Nat := 3
def V4L2_COLORSPACE_BT878 : Nat := 4
def V4L2_COLORSPACE_470_SYSTEM_M : Nat := 5
def V4L2_COLORSPACE_470_SYSTEM_BG : Nat := 6
def V4L2_COLORSPACE_JPEG : Nat := 7
def V4L2_COLORSPACE_SRGB : Nat := 8
def V4L2_COLORSPACE_ADOBERGB : Nat := 9
def V4L2_COLORSPACE_BT2020 : Nat := 10
def V4L2_COLORSPACE_RAW : Nat := 11

def V4L2_XFER_FUNC_DEFAULT : Nat := 0
def V4L2_XFER_FUNC_709 : Nat := 1
def V4L2_XFER_FUNC_SRGB : Nat := 2
def V4L2_XFER_FUNC_ADOBERGB : Nat := 3
def V4L2_XFER_FUNC_SMPTE240M : Nat := 4
def V4L2_XFER_FUNC_NONE : Nat := 5

def V4L2_YCBCR_ENC_DEFAULT : Nat := 0
def V4L2_YCBCR_ENC_601 : Nat := 1
def V4L2_YCBCR_ENC_709 : Nat := 2
def V4L2_YCBCR_ENC_XV601 : Nat := 3
def V4L2_YCBCR_ENC_XV709 : Nat := 4
def V4L2_YCBCR_ENC_SYCC : Nat := 5
def V4L2_YCBCR_ENC_BT2020 : Nat := 6
def V4L2_YCBCR_ENC_BT2020_CONST_LUM : Nat := 7
def V4L2_YCBCR_ENC_SMPTE240M : Nat := 8

def V4L2_QUANTIZATION_DEFAULT : Nat := 0
def V4L2_QUANTIZATION_FULL_RANGE : Nat := 1
def V4L2_QUANTIZATION_LIM_RANGE : Nat := 2

/-! ## Default-resolution macros (header lines 266-399)

A C operand used as a condition holds when it is non-zero; the flag arguments
are therefore integers compared with zero.  The colorspace and encoding
arguments are compared with `==` against enumerators, so any numeric value is
accepted, not only the enumerated ones. -/

/-- The macro `V4L2_MAP_COLORSPACE_DEFAULT(is_sdtv, is_hdtv)`. -/
def V4L2_MAP_COLORSPACE_DEFAULT (is_sdtv is_hdtv : Int) : Nat :=
  if is_sdtv ≠ 0 then V4L2_COLORSPACE_SMPTE170M
  else if is_hdtv ≠ 0 then V4L2_COLORSPACE_REC709 else V4L2_COLORSPACE_SRGB

/-- The macro `V4L2_MAP_XFER_FUNC_DEFAULT(colsp)`. -/
def V4L2_MAP_XFER_FUNC_DEFAULT (colsp : Nat) : Nat :=
  if colsp = V4L2_COLORSPACE_ADOBERGB then V4L2_XFER_FUNC_ADOBERGB
  else if colsp = V4L2_COLORSPACE_SMPTE240M then V4L2_XFER_FUNC_SMPTE240M
  else if colsp = V4L2_COLORSPACE_RAW then V4L2_XFER_FUNC_NONE
  else if colsp = V4L2_COLORSPACE_SRGB ∨ colsp = V4L2_COLORSPACE_JPEG then
    V4L2_XFER_FUNC_SRGB
  else V4L2_XFER_FUNC_709

/-- The macro `V4L2_MAP_YCBCR_ENC_DEFAULT(colsp)`. -/
def V4L2_MAP_YCBCR_ENC_DEFAULT (colsp : Nat) : Nat :=
  if colsp = V4L2_COLORSPACE_REC709 then V4L2_YCBCR_ENC_709
  else if colsp = V4L2_COLORSPACE_BT2020 then V4L2_YCBCR_ENC_BT2020
  else if colsp = V4L2_COLORSPACE_SMPTE240M then V4L2_YCBCR_ENC_SMPTE240M
  else V4L2_YCBCR_ENC_601

/-- The macro `V4L2_MAP_QUANTIZATION_DEFAULT(is_rgb, colsp, ycbcr_enc)`. -/
def V4L2_MAP_QUANTIZATION_DEFAULT (is_rgb : Int) (colsp ycbcr_enc : Nat) : Nat :=
  if is_rgb ≠ 0 ∧ colsp = V4L2_COLORSPACE_BT2020 then V4L2_QUANTIZATION_LIM_RANGE
  else if is_rgb ≠ 0 ∨ ycbcr_enc = V4L2_YCBCR_ENC_XV601 ∨
      ycbcr_enc = V4L2_YCBCR_ENC_XV709 ∨ colsp = V4L2_COLORSPACE_JPEG then
    V4L2_QUANTIZATION_FULL_RANGE
  else V4L2_QUANTIZATION_LIM_RANGE

/-- The mapping of `V4L2_YCBCR_ENC_DEFAULT` that the comment heading
`enum v4l2_ycbcr_encoding` (header lines 312-327) documents, as a list of
(colorspace, encoding) pairs. -/
def ycbcr_enc_doc_table : List (Nat × Nat) := [
  (V4L2_COLORSPACE_SMPTE170M, V4L2_YCBCR_ENC_601),
  (V4L2_COLORSPACE_470_SYSTEM_M, V4L2_YCBCR_ENC_601),
  (V4L2_COLORSPACE_470_SYSTEM_BG, V4L2_YCBCR_ENC_601),
  (V4L2_COLORSPACE_ADOBERGB, V4L2_YCBCR_ENC_601),
  (V4L2_COLORSPACE_JPEG, V4L2_YCBCR_ENC_601),
  (V4L2_COLORSPACE_REC709, V4L2_YCBCR_ENC_709),
  (V4L2_COLORSPACE_SRGB, V4L2_YCBCR_ENC_SYCC),
  (V4L2_COLORSPACE_BT2020, V4L2_YCBCR_ENC_BT2020),
  (V4L2_COLORSPACE_SMPTE240M, V4L2_YCBCR_ENC_SMPTE240M)]

/-! ## Control identifiers (header lines 1552-1554 and 1629-1631) -/

def V4L2_CTRL_ID_MASK : Nat := 0x0fffffff

/-- The macro `V4L2_CTRL_ID2CLASS(id)`: `((id) & 0x0fff0000UL)`. -/
def V4L2_CTRL_ID2CLASS (id : Nat) : Nat := id &&& 0x0fff0000

/-- The macro `V4L2_CTRL_DRIVER_PRIV(id)`: `(((id) & 0xffff) >= 0x1000)`, the C
truth value of the comparison as a `Bool`. -/
def V4L2_CTRL_DRIVER_PRIV (id : Nat) : Bool := decide (0x1000 ≤ id &&& 0xffff)

def V4L2_CTRL_FLAG_NEXT_CTRL : Nat := 0x80000000
def V4L2_CTRL_FLAG_NEXT_COMPOUND : Nat := 0x40000000

/-! ## Analog video standards (header lines 1116-1245)

`v4l2_std_id` is `uint64_t`; every constant below is far below `2 ^ 64`, so the
casts and the ORs are exact on natural numbers. -/

def V4L2_STD_PAL_B : Nat := 0x00000001
def V4L2_STD_PAL_B1 : Nat := 0x00000002
def V4L2_STD_PAL_G : Nat := 0x00000004
def V4L2_STD_PAL_H : Nat := 0x00000008
def V4L2_STD_PAL_I : Nat := 0x00000010
def V4L2_STD_PAL_D : Nat := 0x00000020
def V4L2_STD_PAL_D1 : Nat := 0x00000040
def V4L2_STD_PAL_K : Nat := 0x00000080

def V4L2_STD_PAL_M : Nat := 0x00000100
def V4L2_STD_PAL_N : Nat := 0x00000200
def V4L2_STD_PAL_Nc : Nat := 0x00000400
def V4L2_STD_PAL_60 : Nat := 0x00000800

def V4L2_STD_NTSC_M : Nat := 0x00001000
def V4L2_STD_NTSC_M_JP : Nat := 0x00002000
def V4L2_STD_NTSC_443 : Nat := 0x00004000
def V4L2_STD_NTSC_M_KR : Nat := 0x00008000

def V4L2_STD_SECAM_B : Nat := 0x00010000
def V4L2_STD_SECAM_D : Nat := 0x00020000
def V4L2_STD_SECAM_G : Nat := 0x00040000
def V4L2_STD_SECAM_H : Nat := 0x00080000
def V4L2_STD_SECAM_K : Nat := 0x00100000
def V4L2_STD_SECAM_K1 : Nat := 0x00200000
def V4L2_STD_SECAM_L : Nat := 0x00400000
def V4L2_STD_SECAM_LC : Nat := 0x00800000

def V4L2_STD_ATSC_8_VSB : Nat := 0x01000000
def V4L2_STD_ATSC_16_VSB : Nat := 0x02000000

/-- The primitive standards ("one bit for each") in declaration order. -/
def std_primitives : List Nat := [
  V4L2_STD_PAL_B, V4L2_STD_PAL_B1, V4L2_STD_PAL_G, V4L2_STD_PAL_H, V4L2_STD_PAL_I,
  V4L2_STD_PAL_D, V4L2_STD_PAL_D1, V4L2_STD_PAL_K,
  V4L2_STD_PAL_M, V4L2_STD_PAL_N, V4L2_STD_PAL_Nc, V4L2_STD_PAL_60,
  V4L2_STD_NTSC_M, V4L2_STD_NTSC_M_JP, V4L2_STD_NTSC_443, V4L2_STD_NTSC_M_KR,
  V4L2_STD_SECAM_B, V4L2_STD_SECAM_D, V4L2_STD_SECAM_G, V4L2_STD_SECAM_H,
  V4L2_STD_SECAM_K, V4L2_STD_SECAM_K1, V4L2_STD_SECAM_L, V4L2_STD_SECAM_LC,
  V4L2_STD_ATSC_8_VSB, V4L2_STD_ATSC_16_VSB]

def V4L2_STD_NTSC : Nat := V4L2_STD_NTSC_M ||| V4L2_STD_NTSC_M_JP ||| V4L2_STD_NTSC_M_KR

def V4L2_STD_SECAM_DK : Nat := V4L2_STD_SECAM_D ||| V4L2_STD_SECAM_K ||| V4L2_STD_SECAM_K1

def V4L2_STD_SECAM : Nat :=
  V4L2_STD_SECAM_B ||| V4L2_STD_SECAM_G ||| V4L2_STD_SECAM_H ||| V4L2_STD_SECAM_DK |||
    V4L2_STD_SECAM_L ||| V4L2_STD_SECAM_LC

def V4L2_STD_PAL_BG : Nat := V4L2_STD_PAL_B ||| V4L2_STD_PAL_B1 ||| V4L2_STD_PAL_G

def V4L2_STD_PAL_DK : Nat := V4L2_STD_PAL_D ||| V4L2_STD_PAL_D1 ||| V4L2_STD_PAL_K

def V4L2_STD_PAL : Nat :=
  V4L2_STD_PAL_BG ||| V4L2_STD_PAL_DK ||| V4L2_STD_PAL_H ||| V4L2_STD_PAL_I

def V4L2_STD_525_60 : Nat :=
  V4L2_STD_PAL_M ||| V4L2_STD_PAL_60 ||| V4L2_STD_NTSC ||| V4L2_STD_NTSC_443

def V4L2_STD_625_50 : Nat :=
  V4L2_STD_PAL ||| V4L2_STD_PAL_N ||| V4L2_STD_PAL_Nc ||| V4L2_STD_SECAM

def V4L2_STD_ATSC : Nat := V4L2_STD_ATSC_8_VSB ||| V4L2_STD_ATSC_16_VSB

def V4L2_STD_UNKNOWN : Nat := 0

def V4L2_STD_ALL : Nat := V4L2_STD_525_60 ||| V4L2_STD_625_50

/-! ## DV BT timings (header lines 1259-1366) -/

/-- The record `struct v4l2_bt_timings`.  Every field is a `uint32_t` except
`pixelclock`, which is a `uint64_t`; `reserved` is an array of 14 `uint32_t`. -/
structure v4l2_bt_timings where
  width : Nat
  height : Nat
  interlaced : Nat
  polarities : Nat
  pixelclock : Nat
  hfrontporch : Nat
  hsync : Nat
  hbackporch : Nat
  vfrontporch : Nat
  vsync : Nat
  vbackporch : Nat
  il_vfrontporch : Nat
  il_vsync : Nat
  il_vbackporch : Nat
  standards : Nat
  flags : Nat
  reserved : List Nat
  deriving Repr, DecidableEq

/-- Addition of two `uint32_t` operands: the sum is reduced modulo `2 ^ 32`. -/
def add32 (x y : Nat) : Nat := (x + y) % 2 ^ 32

/-- The macro `V4L2_DV_BT_BLANKING_WIDTH(bt)`:
`((bt)->hfrontporch + (bt)->hsync + (bt)->hbackporch)`. -/
def V4L2_DV_BT_BLANKING_WIDTH (bt : v4l2_bt_timings) : Nat :=
  add32 (add32 bt.hfrontporch bt.hsync) bt.hbackporch

/-- The macro `V4L2_DV_BT_FRAME_WIDTH(bt)`:
`((bt)->width + V4L2_DV_BT_BLANKING_WIDTH(bt))`. -/
def V4L2_DV_BT_FRAME_WIDTH (bt : v4l2_bt_timings) : Nat :=
  add32 bt.width (V4L2_DV_BT_BLANKING_WIDTH bt)

/-- The macro `V4L2_DV_BT_BLANKING_HEIGHT(bt)`:
`((bt)->vfrontporch + (bt)->vsync + (bt)->vbackporch +
(bt)->il_vfrontporch + (bt)->il_vsync + (bt)->il_vbackporch)`. -/
def V4L2_DV_BT_BLANKING_HEIGHT (bt : v4l2_bt_timings) : Nat :=
  add32 (add32 (add32 (add32 (add32 bt.vfrontporch bt.vsync) bt.vbackporch)
    bt.il_vfrontporch) bt.il_vsync) bt.il_vbackporch

/-- The macro `V4L2_DV_BT_FRAME_HEIGHT(bt)`:
`((bt)->height + V4L2_DV_BT_BLANKING_HEIGHT(bt))`. -/
def V4L2_DV_BT_FRAME_HEIGHT (bt : v4l2_bt_timings) : Nat :=
  add32 bt.height (V4L2_DV_BT_BLANKING_HEIGHT bt)

/-- The total frame height as the comment of `struct v4l2_bt_timings` writes it,
over the unbounded integers:
`height + vfrontporch + vsync + vbackporch + il_vfrontporch + il_vsync + il_vbackporch`. -/
def tot_height (bt : v4l2_bt_timings) : Nat :=
  bt.height + bt.vfrontporch + bt.vsync + bt.vbackporch +
    bt.il_vfrontporch + bt.il_vsync + bt.il_vbackporch

/-- The 1080i50 timings of CEA-861 (1920x1080 interlaced, 1125 total lines), an
example value of `struct v4l2_bt_timings`. -/
def bt_1080i50 : v4l2_bt_timings :=
  v4l2_bt_timings.mk 1920 1080 1 3 74250000 528 44 148 2 5 15 2 5 16 1 16
    (List.replicate 14 0)

/-! ## Buffer types (header lines 165-194) -/

def V4L2_BUF_TYPE_VIDEO_CAPTURE : Nat := 1
def V4L2_BUF_TYPE_VIDEO_OUTPUT : Nat := 2
def V4L2_BUF_TYPE_VIDEO_OVERLAY : Nat := 3
def V4L2_BUF_TYPE_VBI_CAPTURE : Nat := 4
def V4L2_BUF_TYPE_VBI_OUTPUT : Nat := 5
def V4L2_BUF_TYPE_SLICED_VBI_CAPTURE : Nat := 6
def V4L2_BUF_TYPE_SLICED_VBI_OUTPUT : Nat := 7
def V4L2_BUF_TYPE_VIDEO_OUTPUT_OVERLAY : Nat := 8
def V4L2_BUF_TYPE_VIDEO_CAPTURE_MPLANE : Nat := 9
def V4L2_BUF_TYPE_VIDEO_OUTPUT_MPLANE : Nat := 10
def V4L2_BUF_TYPE_SDR_CAPTURE : Nat := 11
def V4L2_BUF_TYPE_PRIVATE : Nat := 0x80

/-- The enumerators of `enum v4l2_buf_type` in declaration order. -/
def v4l2_buf_type_values : List Nat := [
  V4L2_BUF_TYPE_VIDEO_CAPTURE, V4L2_BUF_TYPE_VIDEO_OUTPUT, V4L2_BUF_TYPE_VIDEO_OVERLAY,
  V4L2_BUF_TYPE_VBI_CAPTURE, V4L2_BUF_TYPE_VBI_OUTPUT, V4L2_BUF_TYPE_SLICED_VBI_CAPTURE,
  V4L2_BUF_TYPE_SLICED_VBI_OUTPUT, V4L2_BUF_TYPE_VIDEO_OUTPUT_OVERLAY,
  V4L2_BUF_TYPE_VIDEO_CAPTURE_MPLANE, V4L2_BUF_TYPE_VIDEO_OUTPUT_MPLANE,
  V4L2_BUF_TYPE_SDR_CAPTURE, V4L2_BUF_TYPE_PRIVATE]

/-- The macro `V4L2_TYPE_IS_MULTIPLANAR(type)`, the C truth value of the
disjunction as a `Bool`. -/
def V4L2_TYPE_IS_MULTIPLANAR (type : Nat) : Bool :=
  type == V4L2_BUF_TYPE_VIDEO_CAPTURE_MPLANE
    || type == V4L2_BUF_TYPE_VIDEO_OUTPUT_MPLANE

/-! ## HSV encodings (header lines 355-366) -/

def V4L2_HSV_ENC_180 : Nat := 128
def V4L2_HSV_ENC_256 : Nat := 129

/-- The enumerators of `enum v4l2_hsv_encoding`. -/
def v4l2_hsv_encoding_values : List Nat := [V4L2_HSV_ENC_180, V4L2_HSV_ENC_256]

/-- The enumerators of `enum v4l2_ycbcr_encoding` in declaration order. -/
def v4l2_ycbcr_encoding_values : List Nat := [
  V4L2_YCBCR_ENC_DEFAULT, V4L2_YCBCR_ENC_601, V4L2_YCBCR_ENC_709, V4L2_YCBCR_ENC_XV601,
  V4L2_YCBCR_ENC_XV709, V4L2_YCBCR_ENC_SYCC, V4L2_YCBCR_ENC_BT2020,
  V4L2_YCBCR_ENC_BT2020_CONST_LUM, V4L2_YCBCR_ENC_SMPTE240M]

/-! ## Capability flags (header lines 452-486) -/

def V4L2_CAP_VIDEO_CAPTURE : Nat := 0x00000001
def V4L2_CAP_VIDEO_OUTPUT : Nat := 0x00000002
def V4L2_CAP_VIDEO_OVERLAY : Nat := 0x00000004
def V4L2_CAP_VBI_CAPTURE : Nat := 0x00000010
def V4L2_CAP_VBI_OUTPUT : Nat := 0x00000020
def V4L2_CAP_SLICED_VBI_CAPTURE : Nat := 0x00000040
def V4L2_CAP_SLICED_VBI_OUTPUT : Nat := 0x00000080
def V4L2_CAP_RDS_CAPTURE : Nat := 0x00000100
def V4L2_CAP_VIDEO_OUTPUT_OVERLAY : Nat := 0x00000200
def V4L2_CAP_HW_FREQ_SEEK : Nat := 0x00000400
def V4L2_CAP_RDS_OUTPUT : Nat := 0x00000800
def V4L2_CAP_VIDEO_CAPTURE_MPLANE : Nat := 0x00001000
def V4L2_CAP_VIDEO_OUTPUT_MPLANE : Nat := 0x00002000
def V4L2_CAP_VIDEO_M2M_MPLANE : Nat := 0x00004000
def V4L2_CAP_VIDEO_M2M : Nat := 0x00008000
def V4L2_CAP_TUNER : Nat := 0x00010000
def V4L2_CAP_AUDIO : Nat := 0x00020000
def V4L2_CAP_RADIO : Nat := 0x00040000
def V4L2_CAP_MODULATOR : Nat := 0x00080000
def V4L2_CAP_SDR_CAPTURE : Nat := 0x00100000
def V4L2_CAP_EXT_PIX_FORMAT : Nat := 0x00200000
def V4L2_CAP_READWRITE : Nat := 0x01000000
def V4L2_CAP_ASYNCIO : Nat := 0x02000000
def V4L2_CAP_STREAMING : Nat := 0x04000000
def V4L2_CAP_DEVICE_CAPS : Nat := 0x80000000

/-- The values for the `capabilities` field, in declaration order. -/
def v4l2_cap_flags : List Nat := [
  V4L2_CAP_VIDEO_CAPTURE, V4L2_CAP_VIDEO_OUTPUT, V4L2_CAP_VIDEO_OVERLAY,
  V4L2_CAP_VBI_CAPTURE, V4L2_CAP_VBI_OUTPUT, V4L2_CAP_SLICED_VBI_CAPTURE,
  V4L2_CAP_SLICED_VBI_OUTPUT, V4L2_CAP_RDS_CAPTURE, V4L2_CAP_VIDEO_OUTPUT_OVERLAY,
  V4L2_CAP_HW_FREQ_SEEK, V4L2_CAP_RDS_OUTPUT, V4L2_CAP_VIDEO_CAPTURE_MPLANE,
  V4L2_CAP_VIDEO_OUTPUT_MPLANE, V4L2_CAP_VIDEO_M2M_MPLANE, V4L2_CAP_VIDEO_M2M,
  V4L2_CAP_TUNER, V4L2_CAP_AUDIO, V4L2_CAP_RADIO, V4L2_CAP_MODULATOR,
  V4L2_CAP_SDR_CAPTURE, V4L2_CAP_EXT_PIX_FORMAT, V4L2_CAP_READWRITE,
  V4L2_CAP_ASYNCIO, V4L2_CAP_STREAMING, V4L2_CAP_DEVICE_CAPS]

/-- A set of capabilities OR-ed together into one `capabilities` word. -/
def caps_or (flags : List Nat) : Nat := flags.foldr (fun f acc => f ||| acc) 0

/-! ## Ioctl table (header lines 2246-2362) -/

/-- The request-code macro a table row is written with: `_IO`, `_IOR`, `_IOW` or
`_IOWR` (no direction, read, write, read-write). -/
inductive IoctlKind where
  | io
  | ior
  | iow
  | iowr
  deriving Repr, DecidableEq

/-- One `#define VIDIOC_*` row: the macro name, the request-code macro, the
magic character, the sequence number and the payload type as written (empty
for `_IO`). -/
structure IoctlDef where
  name : String
  kind : IoctlKind
  magic : Char
  nr : Nat
  payload : String
  deriving Repr, DecidableEq

/-- Rows `VIDIOC_QUERYCAP` to `VIDIOC_QUERYCTRL` (header lines 2250-2277). -/
def vidioc_table_1 : List IoctlDef := [
  IoctlDef.mk "VIDIOC_QUERYCAP" IoctlKind.ior 'V' 0 "struct v4l2_capability",
  IoctlDef.mk "VIDIOC_RESERVED" IoctlKind.io 'V' 1 "",
  IoctlDef.mk "VIDIOC_ENUM_FMT" IoctlKind.iowr 'V' 2 "struct v4l2_fmtdesc",
  IoctlDef.mk "VIDIOC_G_FMT" IoctlKind.iowr 'V' 4 "struct v4l2_format",
  IoctlDef.mk "VIDIOC_S_FMT" IoctlKind.iowr 'V' 5 "struct v4l2_format",
  IoctlDef.mk "VIDIOC_REQBUFS" IoctlKind.iowr 'V' 8 "struct v4l2_requestbuffers",
  IoctlDef.mk "VIDIOC_QUERYBUF" IoctlKind.iowr 'V' 9 "struct v4l2_buffer",
  IoctlDef.mk "VIDIOC_G_FBUF" IoctlKind.ior 'V' 10 "struct v4l2_framebuffer",
  IoctlDef.mk "VIDIOC_S_FBUF" IoctlKind.iow 'V' 11 "struct v4l2_framebuffer",
  IoctlDef.mk "VIDIOC_OVERLAY" IoctlKind.iow 'V' 14 "int",
  IoctlDef.mk "VIDIOC_QBUF" IoctlKind.iowr 'V' 15 "struct v4l2_buffer",
  IoctlDef.mk "VIDIOC_EXPBUF" IoctlKind.iowr 'V' 16 "struct v4l2_exportbuffer",
  IoctlDef.mk "VIDIOC_DQBUF" IoctlKind.iowr 'V' 17 "struct v4l2_buffer",
  IoctlDef.mk "VIDIOC_STREAMON" IoctlKind.iow 'V' 18 "int",
  IoctlDef.mk "VIDIOC_STREAMOFF" IoctlKind.iow 'V' 19 "int",
  IoctlDef.mk "VIDIOC_G_PARM" IoctlKind.iowr 'V' 21 "struct v4l2_streamparm",
  IoctlDef.mk "VIDIOC_S_PARM" IoctlKind.iowr 'V' 22 "struct v4l2_streamparm",
  IoctlDef.mk "VIDIOC_G_STD" IoctlKind.ior 'V' 23 "v4l2_std_id",
  IoctlDef.mk "VIDIOC_S_STD" IoctlKind.iow 'V' 24 "v4l2_std_id",
  IoctlDef.mk "VIDIOC_ENUMSTD" IoctlKind.iowr 'V' 25 "struct v4l2_standard",
  IoctlDef.mk "VIDIOC_ENUMINPUT" IoctlKind.iowr 'V' 26 "struct v4l2_input",
  IoctlDef.mk "VIDIOC_G_CTRL" IoctlKind.iowr 'V' 27 "struct v4l2_control",
  IoctlDef.mk "VIDIOC_S_CTRL" IoctlKind.iowr 'V' 28 "struct v4l2_control",
  IoctlDef.mk "VIDIOC_G_TUNER" IoctlKind.iowr 'V' 29 "struct v4l2_tuner",
  IoctlDef.mk "VIDIOC_S_TUNER" IoctlKind.iow 'V' 30 "struct v4l2_tuner",
  IoctlDef.mk "VIDIOC_G_AUDIO" IoctlKind.ior 'V' 33 "struct v4l2_audio",
  IoctlDef.mk "VIDIOC_S_AUDIO" IoctlKind.iow 'V' 34 "struct v4l2_audio",
  IoctlDef.mk "VIDIOC_QUERYCTRL" IoctlKind.iowr 'V' 36 "struct v4l2_queryctrl"]

/-- Rows `VIDIOC_QUERYMENU` to `VIDIOC_DBG_G_REGISTER` (header lines 2278-2318). -/
def vidioc_table_2 : List IoctlDef := [
  IoctlDef.mk "VIDIOC_QUERYMENU" IoctlKind.iowr 'V' 37 "struct v4l2_querymenu",
  IoctlDef.mk "VIDIOC_G_INPUT" IoctlKind.ior 'V' 38 "int",
  IoctlDef.mk "VIDIOC_S_INPUT" IoctlKind.iowr 'V' 39 "int",
  IoctlDef.mk "VIDIOC_G_EDID" IoctlKind.iowr 'V' 40 "struct v4l2_edid",
  IoctlDef.mk "VIDIOC_S_EDID" IoctlKind.iowr 'V' 41 "struct v4l2_edid",
  IoctlDef.mk "VIDIOC_G_OUTPUT" IoctlKind.ior 'V' 46 "int",
  IoctlDef.mk "VIDIOC_S_OUTPUT" IoctlKind.iowr 'V' 47 "int",
  IoctlDef.mk "VIDIOC_ENUMOUTPUT" IoctlKind.iowr 'V' 48 "struct v4l2_output",
  IoctlDef.mk "VIDIOC_G_AUDOUT" IoctlKind.ior 'V' 49 "struct v4l2_audioout",
  IoctlDef.mk "VIDIOC_S_AUDOUT" IoctlKind.iow 'V' 50 "struct v4l2_audioout",
  IoctlDef.mk "VIDIOC_G_MODULATOR" IoctlKind.iowr 'V' 54 "struct v4l2_modulator",
  IoctlDef.mk "VIDIOC_S_MODULATOR" IoctlKind.iow 'V' 55 "struct v4l2_modulator",
  IoctlDef.mk "VIDIOC_G_FREQUENCY" IoctlKind.iowr 'V' 56 "struct v4l2_frequency",
  IoctlDef.mk "VIDIOC_S_FREQUENCY" IoctlKind.iow 'V' 57 "struct v4l2_frequency",
  IoctlDef.mk "VIDIOC_CROPCAP" IoctlKind.iowr 'V' 58 "struct v4l2_cropcap",
  IoctlDef.mk "VIDIOC_G_CROP" IoctlKind.iowr 'V' 59 "struct v4l2_crop",
  IoctlDef.mk "VIDIOC_S_CROP" IoctlKind.iow 'V' 60 "struct v4l2_crop",
  IoctlDef.mk "VIDIOC_G_JPEGCOMP" IoctlKind.ior 'V' 61 "struct v4l2_jpegcompression",
  IoctlDef.mk "VIDIOC_S_JPEGCOMP" IoctlKind.iow 'V' 62 "struct v4l2_jpegcompression",
  IoctlDef.mk "VIDIOC_QUERYSTD" IoctlKind.ior 'V' 63 "v4l2_std_id",
  IoctlDef.mk "VIDIOC_TRY_FMT" IoctlKind.iowr 'V' 64 "struct v4l2_format",
  IoctlDef.mk "VIDIOC_ENUMAUDIO" IoctlKind.iowr 'V' 65 "struct v4l2_audio",
  IoctlDef.mk "VIDIOC_ENUMAUDOUT" IoctlKind.iowr 'V' 66 "struct v4l2_audioout",
  IoctlDef.mk "VIDIOC_G_PRIORITY" IoctlKind.ior 'V' 67 "uint32_t",
  IoctlDef.mk "VIDIOC_S_PRIORITY" IoctlKind.iow 'V' 68 "uint32_t",
  IoctlDef.mk "VIDIOC_G_SLICED_VBI_CAP" IoctlKind.iowr 'V' 69 "struct v4l2_sliced_vbi_cap",
  IoctlDef.mk "VIDIOC_LOG_STATUS" IoctlKind.io 'V' 70 "",
  IoctlDef.mk "VIDIOC_G_EXT_CTRLS" IoctlKind.iowr 'V' 71 "struct v4l2_ext_controls",
  IoctlDef.mk "VIDIOC_S_EXT_CTRLS" IoctlKind.iowr 'V' 72 "struct v4l2_ext_controls",
  IoctlDef.mk "VIDIOC_TRY_EXT_CTRLS" IoctlKind.iowr 'V' 73 "struct v4l2_ext_controls",
  IoctlDef.mk "VIDIOC_ENUM_FRAMESIZES" IoctlKind.iowr 'V' 74 "struct v4l2_frmsizeenum",
  IoctlDef.mk "VIDIOC_ENUM_FRAMEINTERVALS" IoctlKind.iowr 'V' 75 "struct v4l2_frmivalenum",
  IoctlDef.mk "VIDIOC_G_ENC_INDEX" IoctlKind.ior 'V' 76 "struct v4l2_enc_idx",
  IoctlDef.mk "VIDIOC_ENCODER_CMD" IoctlKind.iowr 'V' 77 "struct v4l2_encoder_cmd",
  IoctlDef.mk "VIDIOC_TRY_ENCODER_CMD" IoctlKind.iowr 'V' 78 "struct v4l2_encoder_cmd",
  IoctlDef.mk "VIDIOC_DBG_S_REGISTER" IoctlKind.iow 'V' 79 "struct v4l2_dbg_register",
  IoctlDef.mk "VIDIOC_DBG_G_REGISTER" IoctlKind.iowr 'V' 80 "struct v4l2_dbg_register"]

/-- Rows `VIDIOC_S_HW_FREQ_SEEK` to `VIDIOC_G_DEF_EXT_CTRLS` (header lines 2320-2357). -/
def vidioc_table_3 : List IoctlDef := [
  IoctlDef.mk "VIDIOC_S_HW_FREQ_SEEK" IoctlKind.iow 'V' 82 "struct v4l2_hw_freq_seek",
  IoctlDef.mk "VIDIOC_S_DV_TIMINGS" IoctlKind.iowr 'V' 87 "struct v4l2_dv_timings",
  IoctlDef.mk "VIDIOC_G_DV_TIMINGS" IoctlKind.iowr 'V' 88 "struct v4l2_dv_timings",
  IoctlDef.mk "VIDIOC_DQEVENT" IoctlKind.ior 'V' 89 "struct v4l2_event",
  IoctlDef.mk "VIDIOC_SUBSCRIBE_EVENT" IoctlKind.iow 'V' 90 "struct v4l2_event_subscription",
  IoctlDef.mk "VIDIOC_UNSUBSCRIBE_EVENT" IoctlKind.iow 'V' 91 "struct v4l2_event_subscription",
  IoctlDef.mk "VIDIOC_CREATE_BUFS" IoctlKind.iowr 'V' 92 "struct v4l2_create_buffers",
  IoctlDef.mk "VIDIOC_PREPARE_BUF" IoctlKind.iowr 'V' 93 "struct v4l2_buffer",
  IoctlDef.mk "VIDIOC_G_SELECTION" IoctlKind.iowr 'V' 94 "struct v4l2_selection",
  IoctlDef.mk "VIDIOC_S_SELECTION" IoctlKind.iowr 'V' 95 "struct v4l2_selection",
  IoctlDef.mk "VIDIOC_DECODER_CMD" IoctlKind.iowr 'V' 96 "struct v4l2_decoder_cmd",
  IoctlDef.mk "VIDIOC_TRY_DECODER_CMD" IoctlKind.iowr 'V' 97 "struct v4l2_decoder_cmd",
  IoctlDef.mk "VIDIOC_ENUM_DV_TIMINGS" IoctlKind.iowr 'V' 98 "struct v4l2_enum_dv_timings",
  IoctlDef.mk "VIDIOC_QUERY_DV_TIMINGS" IoctlKind.ior 'V' 99 "struct v4l2_dv_timings",
  IoctlDef.mk "VIDIOC_DV_TIMINGS_CAP" IoctlKind.iowr 'V' 100 "struct v4l2_dv_timings_cap",
  IoctlDef.mk "VIDIOC_ENUM_FREQ_BANDS" IoctlKind.iowr 'V' 101 "struct v4l2_frequency_band",
  IoctlDef.mk "VIDIOC_DBG_G_CHIP_INFO" IoctlKind.iowr 'V' 102 "struct v4l2_dbg_chip_info",
  IoctlDef.mk "VIDIOC_QUERY_EXT_CTRL" IoctlKind.iowr 'V' 103 "struct v4l2_query_ext_ctrl",
  IoctlDef.mk "VIDIOC_G_DEF_EXT_CTRLS" IoctlKind.iowr 'V' 104 "struct v4l2_ext_controls"]

/-- Every `VIDIOC_*` definition of the header, in source order. -/
def vidioc_table : List IoctlDef := vidioc_table_1 ++ vidioc_table_2 ++ vidioc_table_3

def BASE_VIDIOC_PRIVATE : Nat := 192

/-! ## Field order (header lines 119-163) -/

def V4L2_FIELD_ANY : Nat := 0
def V4L2_FIELD_NONE : Nat := 1
def V4L2_FIELD_TOP : Nat := 2
def V4L2_FIELD_BOTTOM : Nat := 3
def V4L2_FIELD_INTERLACED : Nat := 4
def V4L2_FIELD_SEQ_TB : Nat := 5
def V4L2_FIELD_SEQ_BT : Nat := 6
def V4L2_FIELD_ALTERNATE : Nat := 7
def V4L2_FIELD_INTERLACED_TB : Nat := 8
def V4L2_FIELD_INTERLACED_BT : Nat := 9

/-- The enumerators of `enum v4l2_field` in declaration order. -/
def v4l2_field_values : List Nat := [
  V4L2_FIELD_ANY, V4L2_FIELD_NONE, V4L2_FIELD_TOP, V4L2_FIELD_BOTTOM,
  V4L2_FIELD_INTERLACED, V4L2_FIELD_SEQ_TB, V4L2_FIELD_SEQ_BT, V4L2_FIELD_ALTERNATE,
  V4L2_FIELD_INTERLACED_TB, V4L2_FIELD_INTERLACED_BT]

/-- The macro `V4L2_FIELD_HAS_TOP(field)`. -/
def V4L2_FIELD_HAS_TOP (field : Nat) : Bool :=
  field == V4L2_FIELD_TOP ||
  field == V4L2_FIELD_INTERLACED ||
  field == V4L2_FIELD_INTERLACED_TB ||
  field == V4L2_FIELD_INTERLACED_BT ||
  field == V4L2_FIELD_SEQ_TB ||
  field == V4L2_FIELD_SEQ_BT

/-- The macro `V4L2_FIELD_HAS_BOTTOM(field)`. -/
def V4L2_FIELD_HAS_BOTTOM (field : Nat) : Bool :=
  field == V4L2_FIELD_BOTTOM ||
  field == V4L2_FIELD_INTERLACED ||
  field == V4L2_FIELD_INTERLACED_TB ||
  field == V4L2_FIELD_INTERLACED_BT ||
  field == V4L2_FIELD_SEQ_TB ||
  field == V4L2_FIELD_SEQ_BT

/-- The macro `V4L2_FIELD_HAS_BOTH(field)`. -/
def V4L2_FIELD_HAS_BOTH (field : Nat) : Bool :=
  field == V4L2_FIELD_INTERLACED ||
  field == V4L2_FIELD_INTERLACED_TB ||
  field == V4L2_FIELD_INTERLACED_BT ||
  field == V4L2_FIELD_SEQ_TB ||
  field == V4L2_FIELD_SEQ_BT

/-- The macro `V4L2_FIELD_HAS_T_OR_B(field)`. -/
def V4L2_FIELD_HAS_T_OR_B (field : Nat) : Bool :=
  field == V4L2_FIELD_BOTTOM ||
  field == V4L2_FIELD_TOP ||
  field == V4L2_FIELD_ALTERNATE

/-- The macro `V4L2_TYPE_IS_OUTPUT(type)` (header lines 187-194), the C truth
value of the disjunction as a `Bool`. -/
def V4L2_TYPE_IS_OUTPUT (type : Nat) : Bool :=
  type == V4L2_BUF_TYPE_VIDEO_OUTPUT
    || type == V4L2_BUF_TYPE_VIDEO_OUTPUT_MPLANE
    || type == V4L2_BUF_TYPE_VIDEO_OVERLAY
    || type == V4L2_BUF_TYPE_VIDEO_OUTPUT_OVERLAY
    || type == V4L2_BUF_TYPE_VBI_OUTPUT
    || type == V4L2_BUF_TYPE_SLICED_VBI_OUTPUT

/-! ## Buffer flags (header lines 936-968) -/

def V4L2_BUF_FLAG_MAPPED : Nat := 0x00000001
def V4L2_BUF_FLAG_QUEUED : Nat := 0x00000002
def V4L2_BUF_FLAG_DONE : Nat := 0x00000004
def V4L2_BUF_FLAG_KEYFRAME : Nat := 0x00000008
def V4L2_BUF_FLAG_PFRAME : Nat := 0x00000010
def V4L2_BUF_FLAG_BFRAME : Nat := 0x00000020
def V4L2_BUF_FLAG_ERROR : Nat := 0x00000040
def V4L2_BUF_FLAG_TIMECODE : Nat := 0x00000100
def V4L2_BUF_FLAG_PREPARED : Nat := 0x00000400
def V4L2_BUF_FLAG_NO_CACHE_INVALIDATE : Nat := 0x00000800
def V4L2_BUF_FLAG_NO_CACHE_CLEAN : Nat := 0x00001000
def V4L2_BUF_FLAG_TIMESTAMP_MASK : Nat := 0x0000e000
def V4L2_BUF_FLAG_TIMESTAMP_UNKNOWN : Nat := 0x00000000
def V4L2_BUF_FLAG_TIMESTAMP_MONOTONIC : Nat := 0x00002000
def V4L2_BUF_FLAG_TIMESTAMP_COPY : Nat := 0x00004000
def V4L2_BUF_FLAG_TSTAMP_SRC_MASK : Nat := 0x00070000
def V4L2_BUF_FLAG_TSTAMP_SRC_EOF : Nat := 0x00000000
def V4L2_BUF_FLAG_TSTAMP_SRC_SOE : Nat := 0x00010000
def V4L2_BUF_FLAG_LAST : Nat := 0x00100000

/-- The single-bit buffer flags in declaration order. -/
def v4l2_buf_flag_bits : List Nat := [
  V4L2_BUF_FLAG_MAPPED, V4L2_BUF_FLAG_QUEUED, V4L2_BUF_FLAG_DONE,
  V4L2_BUF_FLAG_KEYFRAME, V4L2_BUF_FLAG_PFRAME, V4L2_BUF_FLAG_BFRAME,
  V4L2_BUF_FLAG_ERROR, V4L2_BUF_FLAG_TIMECODE, V4L2_BUF_FLAG_PREPARED,
  V4L2_BUF_FLAG_NO_CACHE_INVALIDATE, V4L2_BUF_FLAG_NO_CACHE_CLEAN, V4L2_BUF_FLAG_LAST]

/-- The timestamp-type values carried under `V4L2_BUF_FLAG_TIMESTAMP_MASK`. -/
def v4l2_buf_timestamp_types : List Nat := [
  V4L2_BUF_FLAG_TIMESTAMP_UNKNOWN, V4L2_BUF_FLAG_TIMESTAMP_MONOTONIC,
  V4L2_BUF_FLAG_TIMESTAMP_COPY]

/-- The timestamp-source values carried under `V4L2_BUF_FLAG_TSTAMP_SRC_MASK`. -/
def v4l2_buf_tstamp_sources : List Nat := [
  V4L2_BUF_FLAG_TSTAMP_SRC_EOF, V4L2_BUF_FLAG_TSTAMP_SRC_SOE]

/-! ## Record layouts (header lines 409-419, 491-509, 1034-1048, 1103-1113,
1882-1919, 2011-2082)

A record declaration is embedded as its list of members in source order.  Sizes
and offsets follow the C layout rule: each member is placed at the next offset
that is a multiple of its alignment, the record is padded to a multiple of its
largest member alignment, `__attribute__ ((packed))` removes all padding, and
every member of a union starts at the union's offset.  The alignments of the
fixed-width integers and the size and alignment of a pointer are parameters of
the data model. -/

/-- The data model of the compiler: alignment of 16-bit and 32-bit integers,
size and alignment of a pointer. -/
structure Abi where
  align16 : Nat
  align32 : Nat
  ptr_size : Nat
  ptr_align : Nat
  deriving Repr, DecidableEq

/-- The data models considered: 16-bit alignment 1 or 2, 32-bit alignment 1, 2 or
4, pointer size 4 or 8, pointer alignment 1, 2, 4 or 8. -/
def abi_list : List Abi :=
  [1, 2].flatMap fun a16 => [1, 2, 4].flatMap fun a32 => [4, 8].flatMap fun ps =>
    [1, 2, 4, 8].map fun pa => Abi.mk a16 a32 ps pa

/-- The data model of a 32-bit target: natural integer alignment, 4-byte pointers. -/
def abi_ilp32 : Abi := Abi.mk 2 4 4 4

/-- The data model of a 64-bit target: natural integer alignment, 8-byte pointers. -/
def abi_lp64 : Abi := Abi.mk 2 4 8 8

/-- Size and alignment of a C object type, in bytes. -/
structure CType where
  size : Nat
  align : Nat
  deriving Repr, DecidableEq

def uint8_t : CType := CType.mk 1 1
def uint16_t (abi : Abi) : CType := CType.mk 2 abi.align16
def uint32_t (abi : Abi) : CType := CType.mk 4 abi.align32
def int32_t (abi : Abi) : CType := CType.mk 4 abi.align32

/-- A pointer type, `T *`. -/
def pointer (abi : Abi) : CType := CType.mk abi.ptr_size abi.ptr_align

/-- The array type `T[n]`. -/
def array_of (t : CType) (n : Nat) : CType := CType.mk (t.size * n) t.align

/-- The least multiple of `a` that is at least `off`. -/
def align_up (off a : Nat) : Nat := (off + a - 1) / a * a

/-- The size of a union of the given member types before padding: the largest
member size. -/
def union_size (ts : List CType) : Nat := ts.foldl (fun acc t => max acc t.size) 0

/-- The largest alignment among the given member types. -/
def max_align (ts : List CType) : Nat := ts.foldl (fun acc t => max acc t.align) 1

/-- The union type with the given member types. -/
def union_type (ts : List CType) : CType :=
  CType.mk (align_up (union_size ts) (max_align ts)) (max_align ts)

/-- A member of a record declaration: a named field, or an anonymous union whose
members are named in the enclosing record. -/
inductive Member where
  | field (name : String) (type : CType)
  | anon_union (members : List (String × CType))
  deriving Repr

/-- The type of a member. -/
def Member.type : Member → CType
  | Member.field _ t => t
  | Member.anon_union ms => union_type (ms.map fun m => m.2)

/-- The names a member introduces into the enclosing record. -/
def Member.names : Member → List String
  | Member.field n _ => [n]
  | Member.anon_union ms => ms.map fun m => m.1

/-- A `struct` declaration: whether it carries `__attribute__ ((packed))`, and
its members in source order. -/
structure StructDecl where
  packed : Bool
  members : List Member
  deriving Repr

/-- Places the members one after another starting at offset `off`; the result is
the offset of every member name and the offset just past the last member. -/
def place (packed : Bool) (off : Nat) : List Member → List (String × Nat) × Nat
  | [] => ([], off)
  | m :: ms =>
    let o := if packed then off else align_up off m.type.align
    let r := place packed (o + m.type.size) ms
    (m.names.map (fun n => (n, o)) ++ r.1, r.2)

/-- The alignment of a record: 1 when packed, else its largest member alignment. -/
def StructDecl.align (s : StructDecl) : Nat :=
  if s.packed then 1 else max_align (s.members.map Member.type)

/-- The byte offset of every member name, in source order. -/
def StructDecl.offsets (s : StructDecl) : List (String × Nat) :=
  (place s.packed 0 s.members).1

/-- The value of `offsetof(struct, name)`. -/
def StructDecl.offsetof (s : StructDecl) (name : String) : Option Nat :=
  (s.offsets.find? fun p => p.1 == name).map fun p => p.2

/-- The value of `sizeof(struct)`: the end of the last member, padded to the
alignment of the record. -/
def StructDecl.size (s : StructDecl) : Nat :=
  align_up (place s.packed 0 s.members).2 s.align

/-- The sum of the member sizes; the record has no padding when this is its size. -/
def StructDecl.payload (s : StructDecl) : Nat :=
  (s.members.map fun m => m.type.size).sum

/-- The record as an object type, for use as a member of another record. -/
def StructDecl.ctype (s : StructDecl) : CType := CType.mk s.size s.align

def VIDEO_MAX_FRAME : Nat := 32
def VIDEO_MAX_PLANES : Nat := 8

/-- The declaration `struct v4l2_rect` (header lines 409-414). -/
def v4l2_rect (abi : Abi) : StructDecl :=
  StructDecl.mk false [
    Member.field "left" (int32_t abi),
    Member.field "top" (int32_t abi),
    Member.field "width" (uint32_t abi),
    Member.field "height" (uint32_t abi)]

/-- The declaration `struct v4l2_pix_format` (header lines 491-509). -/
def v4l2_pix_format (abi : Abi) : StructDecl :=
  StructDecl.mk false [
    Member.field "width" (uint32_t abi),
    Member.field "height" (uint32_t abi),
    Member.field "pixelformat" (uint32_t abi),
    Member.field "field" (uint32_t abi),
    Member.field "bytesperline" (uint32_t abi),
    Member.field "sizeimage" (uint32_t abi),
    Member.field "colorspace" (uint32_t abi),
    Member.field "priv" (uint32_t abi),
    Member.field "flags" (uint32_t abi),
    Member.anon_union [("ycbcr_enc", uint32_t abi), ("hsv_enc", uint32_t abi)],
    Member.field "quantization" (uint32_t abi),
    Member.field "xfer_func" (uint32_t abi)]

/-- The declaration `struct v4l2_window` (header lines 1040-1048). -/
def v4l2_window (abi : Abi) : StructDecl :=
  StructDecl.mk false [
    Member.field "w" (v4l2_rect abi).ctype,
    Member.field "field" (uint32_t abi),
    Member.field "chromakey" (uint32_t abi),
    Member.field "clips" (pointer abi),
    Member.field "clipcount" (uint32_t abi),
    Member.field "bitmap" (pointer abi),
    Member.field "global_alpha" uint8_t]

/-- The declaration `struct v4l2_selection` (header lines 1103-1113). -/
def v4l2_selection (abi : Abi) : StructDecl :=
  StructDecl.mk false [
    Member.field "type" (uint32_t abi),
    Member.field "target" (uint32_t abi),
    Member.field "flags" (uint32_t abi),
    Member.field "r" (v4l2_rect abi).ctype,
    Member.field "rectangles" (uint32_t abi),
    Member.anon_union [("reserved", array_of (uint32_t abi) 8), ("pr", pointer abi)]]

/-- The declaration `struct v4l2_vbi_format` (header lines 1882-1891). -/
def v4l2_vbi_format (abi : Abi) : StructDecl :=
  StructDecl.mk false [
    Member.field "sampling_rate" (uint32_t abi),
    Member.field "offset" (uint32_t abi),
    Member.field "samples_per_line" (uint32_t abi),
    Member.field "sample_format" (uint32_t abi),
    Member.field "start" (array_of (int32_t abi) 2),
    Member.field "count" (array_of (uint32_t abi) 2),
    Member.field "flags" (uint32_t abi),
    Member.field "reserved" (array_of (uint32_t abi) 2)]

/-- The declaration `struct v4l2_sliced_vbi_format` (header lines 1910-1919). -/
def v4l2_sliced_vbi_format (abi : Abi) : StructDecl :=
  StructDecl.mk false [
    Member.field "service_set" (uint16_t abi),
    Member.field "service_lines" (array_of (array_of (uint16_t abi) 24) 2),
    Member.field "io_size" (uint32_t abi),
    Member.field "reserved" (array_of (uint32_t abi) 2)]

/-- The declaration `struct v4l2_plane_pix_format` (header lines 2011-2015),
packed. -/
def v4l2_plane_pix_format (abi : Abi) : StructDecl :=
  StructDecl.mk true [
    Member.field "sizeimage" (uint32_t abi),
    Member.field "bytesperline" (uint32_t abi),
    Member.field "reserved" (array_of (uint16_t abi) 6)]

/-- The declaration `struct v4l2_pix_format_mplane` (header lines 2031-2048),
packed. -/
def v4l2_pix_format_mplane (abi : Abi) : StructDecl :=
  StructDecl.mk true [
    Member.field "width" (uint32_t abi),
    Member.field "height" (uint32_t abi),
    Member.field "pixelformat" (uint32_t abi),
    Member.field "field" (uint32_t abi),
    Member.field "colorspace" (uint32_t abi),
    Member.field "plane_fmt" (array_of (v4l2_plane_pix_format abi).ctype VIDEO_MAX_PLANES),
    Member.field "num_planes" uint8_t,
    Member.field "flags" uint8_t,
    Member.anon_union [("ycbcr_enc", uint8_t), ("hsv_enc", uint8_t)],
    Member.field "quantization" uint8_t,
    Member.field "xfer_func" uint8_t,
    Member.field "reserved" (array_of uint8_t 7)]

/-- The declaration `struct v4l2_sdr_format` (header lines 2055-2059), packed. -/
def v4l2_sdr_format (abi : Abi) : StructDecl :=
  StructDecl.mk true [
    Member.field "pixelformat" (uint32_t abi),
    Member.field "buffersize" (uint32_t abi),
    Member.field "reserved" (array_of uint8_t 24)]

/-- The members of the union `fmt` of `struct v4l2_format` (header lines
2073-2081), in source order. -/
def v4l2_format_fmt_members (abi : Abi) : List (String × CType) := [
  ("pix", (v4l2_pix_format abi).ctype),
  ("pix_mp", (v4l2_pix_format_mplane abi).ctype),
  ("win", (v4l2_window abi).ctype),
  ("vbi", (v4l2_vbi_format abi).ctype),
  ("sliced", (v4l2_sliced_vbi_format abi).ctype),
  ("sdr", (v4l2_sdr_format abi).ctype),
  ("raw_data", array_of uint8_t 200)]

/-- The union `fmt` of `struct v4l2_format` as an object type. -/
def v4l2_format_fmt (abi : Abi) : CType :=
  union_type ((v4l2_format_fmt_members abi).map fun m => m.2)

/-- The declaration `struct v4l2_format` (header lines 2071-2082). -/
def v4l2_format (abi : Abi) : StructDecl :=
  StructDecl.mk false [
    Member.field "type" (uint32_t abi),
    Member.field "fmt" (v4l2_format_fmt abi)]

/-! ## Helper lemmas on the FOURCC constructors -/

theorem u32_of_byte {x : Nat} (hx : x < 256) : u32 x = x := by
  unfold u32
  omega

theorem shl32_byte {x : Nat} (hx : x < 256) (n : Nat) (hn : n ≤ 24) :
    shl32 x n = 2 ^ n * x := by
  unfold shl32
  rw [Nat.shiftLeft_eq, Nat.mul_comm]
  apply Nat.mod_eq_of_lt
  calc 2 ^ n * x < 2 ^ n * 256 := Nat.mul_lt_mul_of_pos_left hx (Nat.two_pow_pos n)
    _ = 2 ^ (n + 8) := by rw [Nat.pow_add]
    _ ≤ 2 ^ 32 := Nat.pow_le_pow_right (by decide) (by omega)

/-- On bytes the OR of the four shifted operands is their weighted sum. -/
theorem v4l2_fourcc_eq_sum {a b c d : Nat} (ha : a < 256) (hb : b < 256)
    (hc : c < 256) (hd : d < 256) :
    v4l2_fourcc a b c d = a + b * 2 ^ 8 + c * 2 ^ 16 + d * 2 ^ 24 := by
  unfold v4l2_fourcc
  rw [u32_of_byte ha, u32_of_byte hb, u32_of_byte hc, u32_of_byte hd,
    shl32_byte hb 8 (by decide), shl32_byte hc 16 (by decide), shl32_byte hd 24 (by decide)]
  have h1 : a ||| 2 ^ 8 * b = 2 ^ 8 * b + a := by
    rw [Nat.or_comm]
    exact (Nat.mul_add_lt_is_or (by omega) b).symm
  have h2 : (2 ^ 8 * b + a) ||| 2 ^ 16 * c = 2 ^ 16 * c + (2 ^ 8 * b + a) := by
    rw [Nat.or_comm]
    exact (Nat.mul_add_lt_is_or (by omega) c).symm
  have h3 : (2 ^ 16 * c + (2 ^ 8 * b + a)) ||| 2 ^ 24 * d
      = 2 ^ 24 * d + (2 ^ 16 * c + (2 ^ 8 * b + a)) := by
    rw [Nat.or_comm]
    exact (Nat.mul_add_lt_is_or (by omega) d).symm
  rw [h1, h2, h3]
  omega

/-- OR-ing the marker `0x80000000` into a 32-bit value adds `2 ^ 31` when bit 31
is clear and changes nothing when it is already set. -/
theorem or_marker {x : Nat} (hx : x < 2 ^ 32) :
    x ||| u32 (1 <<< 31) = if x < 2 ^ 31 then x + 2 ^ 31 else x := by
  have hm : u32 (1 <<< 31) = 2 ^ 31 * 1 := by decide
  rw [hm]
  split
  · next h =>
    rw [Nat.or_comm, ← Nat.mul_add_lt_is_or h 1]
    omega
  · next h =>
    have hr : x - 2 ^ 31 < 2 ^ 31 := by omega
    have hx2 : x = 2 ^ 31 * 1 ||| (x - 2 ^ 31) := by
      rw [← Nat.mul_add_lt_is_or hr 1]
      omega
    calc x ||| 2 ^ 31 * 1 = 2 ^ 31 * 1 ||| (2 ^ 31 * 1 ||| (x - 2 ^ 31)) := by
          rw [Nat.or_comm, ← hx2]
      _ = 2 ^ 31 * 1 ||| (x - 2 ^ 31) := by rw [← Nat.or_assoc, Nat.or_self]
      _ = x := hx2.symm

/-- The big-endian constructor on bytes, in arithmetic form. -/
theorem v4l2_fourcc_be_eq_sum {a b c d : Nat} (ha : a < 256) (hb : b < 256)
    (hc : c < 256) (hd : d < 256) :
    v4l2_fourcc_be a b c d
      = a + b * 2 ^ 8 + c * 2 ^ 16 + d * 2 ^ 24 + (if d < 128 then 2 ^ 31 else 0) := by
  unfold v4l2_fourcc_be
  have hs := v4l2_fourcc_eq_sum ha hb hc hd
  rw [or_marker (by omega), hs]
  split <;> split <;> omega

/-! ## FOURCC constructors: value, round trip, marker bit -/

/-- C1: for all bytes `a b c d`, `v4l2_fourcc(a, b, c, d)` is the 32-bit value
`a + b*2^8 + c*2^16 + d*2^24`, which is `a | b<<8 | c<<16 | d<<24`, and
`v4l2_fourcc_be(a, b, c, d)` is that value with bit 31 OR-ed in. -/
theorem v4l2_fourcc_value (a b c d : Nat) (ha : a < 256) (hb : b < 256)
    (hc : c < 256) (hd : d < 256) :
    v4l2_fourcc a b c d = a + b * 2 ^ 8 + c * 2 ^ 16 + d * 2 ^ 24 ∧
    v4l2_fourcc a b c d = (a ||| b <<< 8 ||| c <<< 16 ||| d <<< 24) ∧
    v4l2_fourcc a b c d < 2 ^ 32 ∧
    v4l2_fourcc_be a b c d = (a + b * 2 ^ 8 + c * 2 ^ 16 + d * 2 ^ 24) ||| 2 ^ 31 ∧
    v4l2_fourcc_be a b c d < 2 ^ 32 := by
  have hs := v4l2_fourcc_eq_sum ha hb hc hd
  have hbe := v4l2_fourcc_be_eq_sum ha hb hc hd
  refine ⟨hs, ?_, by omega, ?_, ?_⟩
  · have h := hs
    unfold v4l2_fourcc at h ⊢
    rw [u32_of_byte ha, u32_of_byte hb, u32_of_byte hc, u32_of_byte hd]
    simp only [shl32]
    rw [Nat.mod_eq_of_lt, Nat.mod_eq_of_lt, Nat.mod_eq_of_lt] <;>
      simp only [Nat.shiftLeft_eq] <;> omega
  · rw [← hs]
    rfl
  · rw [hbe]
    split <;> omega

/-- The constructors evaluated at the bytes of `'Y' 'U' 'Y' 'V'`. -/
theorem v4l2_fourcc_value_witness :
    v4l2_fourcc 0x59 0x55 0x59 0x56 = 0x56595559 ∧
    v4l2_fourcc_be 0x59 0x55 0x59 0x56 = 0xD6595559 := by
  have h := v4l2_fourcc_value 0x59 0x55 0x59 0x56 (by decide) (by decide) (by decide)
    (by decide)
  exact ⟨h.1, by decide⟩

/-- C2: little-endian round trip.  For all bytes `a b c d`, the four bytes of
`x = v4l2_fourcc(a, b, c, d)`, taken as `x & 0xff`, `(x >> 8) & 0xff`,
`(x >> 16) & 0xff`, `(x >> 24) & 0xff`, are exactly `a`, `b`, `c`, `d`. -/
theorem v4l2_fourcc_roundtrip (a b c d : Nat) (ha : a < 256) (hb : b < 256)
    (hc : c < 256) (hd : d < 256) :
    v4l2_fourcc a b c d &&& 0xff = a ∧
    (v4l2_fourcc a b c d >>> 8) &&& 0xff = b ∧
    (v4l2_fourcc a b c d >>> 16) &&& 0xff = c ∧
    (v4l2_fourcc a b c d >>> 24) &&& 0xff = d := by
  have hs := v4l2_fourcc_eq_sum ha hb hc hd
  have hm : ∀ y : Nat, y &&& 0xff = y % 2 ^ 8 := fun y => Nat.and_pow_two_sub_one_eq_mod y 8
  simp only [hm, Nat.shiftRight_eq_div_pow]
  omega

/-- The little-endian round trip at the bytes of `'Y' 'U' 'Y' 'V'`. -/
theorem v4l2_fourcc_roundtrip_witness :
    v4l2_fourcc 0x59 0x55 0x59 0x56 &&& 0xff = 0x59 ∧
    (v4l2_fourcc 0x59 0x55 0x59 0x56 >>> 8) &&& 0xff = 0x55 ∧
    (v4l2_fourcc 0x59 0x55 0x59 0x56 >>> 16) &&& 0xff = 0x59 ∧
    (v4l2_fourcc 0x59 0x55 0x59 0x56 >>> 24) &&& 0xff = 0x56 :=
  v4l2_fourcc_roundtrip 0x59 0x55 0x59 0x56 (by decide) (by decide) (by decide) (by decide)

/-- C3: big-endian round trip.  For all bytes `a b c` and every 7-bit `d`,
clearing the bit-31 marker of `v4l2_fourcc_be(a, b, c, d)` and taking the four
bytes least-significant first gives back `a`, `b`, `c`, `d`. -/
theorem v4l2_fourcc_be_roundtrip (a b c d : Nat) (ha : a < 256) (hb : b < 256)
    (hc : c < 256) (hd : d < 128) :
    (v4l2_fourcc_be a b c d &&& 0x7fffffff) &&& 0xff = a ∧
    ((v4l2_fourcc_be a b c d &&& 0x7fffffff) >>> 8) &&& 0xff = b ∧
    ((v4l2_fourcc_be a b c d &&& 0x7fffffff) >>> 16) &&& 0xff = c ∧
    ((v4l2_fourcc_be a b c d &&& 0x7fffffff) >>> 24) &&& 0xff = d := by
  have hs := v4l2_fourcc_be_eq_sum ha hb hc (by omega : d < 256)
  rw [if_pos hd] at hs
  have hm : ∀ y : Nat, y &&& 0xff = y % 2 ^ 8 := fun y => Nat.and_pow_two_sub_one_eq_mod y 8
  have hk : ∀ y : Nat, y &&& 0x7fffffff = y % 2 ^ 31 :=
    fun y => Nat.and_pow_two_sub_one_eq_mod y 31
  simp only [hm, hk, Nat.shiftRight_eq_div_pow]
  omega

/-- The big-endian round trip at the bytes of `'Y' '1' '6' ' '`. -/
theorem v4l2_fourcc_be_roundtrip_witness :
    (v4l2_fourcc_be 0x59 0x31 0x36 0x20 &&& 0x7fffffff) &&& 0xff = 0x59 ∧
    ((v4l2_fourcc_be 0x59 0x31 0x36 0x20 &&& 0x7fffffff) >>> 8) &&& 0xff = 0x31 ∧
    ((v4l2_fourcc_be 0x59 0x31 0x36 0x20 &&& 0x7fffffff) >>> 16) &&& 0xff = 0x36 ∧
    ((v4l2_fourcc_be 0x59 0x31 0x36 0x20 &&& 0x7fffffff) >>> 24) &&& 0xff = 0x20 :=
  v4l2_fourcc_be_roundtrip 0x59 0x31 0x36 0x20 (by decide) (by decide) (by decide)
    (by decide)

/-- C4: bit-31 convention.  For all bytes `a b c d`, `v4l2_fourcc_be(a, b, c, d)`
always has bit 31 set (its value is at least `2^31`), and bit 31 of
`v4l2_fourcc(a, b, c, d)` is set exactly when `d >= 128`, so never when
`d < 128`. -/
theorem v4l2_fourcc_bit31 (a b c d : Nat) (ha : a < 256) (hb : b < 256)
    (hc : c < 256) (hd : d < 256) :
    (v4l2_fourcc_be a b c d).testBit 31 = true ∧
    2 ^ 31 ≤ v4l2_fourcc_be a b c d ∧
    ((v4l2_fourcc a b c d).testBit 31 = true ↔ 128 ≤ d) ∧
    (2 ^ 31 ≤ v4l2_fourcc a b c d ↔ 128 ≤ d) ∧
    (d < 128 → (v4l2_fourcc a b c d).testBit 31 = false) := by
  have hs := v4l2_fourcc_eq_sum ha hb hc hd
  have hbe := v4l2_fourcc_be_eq_sum ha hb hc hd
  have hle : 2 ^ 31 ≤ v4l2_fourcc_be a b c d := by
    rw [hbe]
    split <;> omega
  have hlt : v4l2_fourcc_be a b c d < 2 ^ 32 := by
    rw [hbe]
    split <;> omega
  have hbit : ∀ x : Nat, x < 2 ^ 32 → (x.testBit 31 = true ↔ 2 ^ 31 ≤ x) := by
    intro x hx
    rw [Nat.testBit_to_div_mod, decide_eq_true_iff]
    omega
  have hf : (v4l2_fourcc a b c d).testBit 31 = true ↔ 128 ≤ d := by
    rw [hbit _ (by omega)]
    omega
  refine ⟨(hbit _ hlt).2 hle, hle, hf, by omega, ?_⟩
  intro h
  cases hb31 : (v4l2_fourcc a b c d).testBit 31
  · rfl
  · have := hf.1 hb31
    omega

/-- The bit-31 convention at the bytes of `'Y' '1' '6' ' '`. -/
theorem v4l2_fourcc_bit31_witness :
    (v4l2_fourcc_be 0x59 0x31 0x36 0x20).testBit 31 = true ∧
    (v4l2_fourcc 0x59 0x31 0x36 0x20).testBit 31 = false := by
  have h := v4l2_fourcc_bit31 0x59 0x31 0x36 0x20 (by decide) (by decide) (by decide)
    (by decide)
  exact ⟨h.1, h.2.2.2.2 (by decide)⟩

/-! ## The format table -/

set_option maxRecDepth 100000 in
/-- C5: every `V4L2_PIX_FMT_*` and `V4L2_SDR_FMT_*` code of the table is the
constructor's value for its four printable 7-bit ASCII characters (for example
`V4L2_PIX_FMT_YUYV = 0x56595559`); an entry has bit 31 set exactly when it is
written with `v4l2_fourcc_be`, which holds for `ARGB555X`, `XRGB555X`, `Y16_BE`
and `QTEC_GREEN16_BE` only, and each of these is its little-endian counterpart
plus `0x80000000` (for example `V4L2_PIX_FMT_Y16_BE = 0xA0363159`). -/
theorem fourcc_table_codes :
    fourcc_table.length = 149 ∧
    (∀ f ∈ fourcc_table,
      printable f.a = true ∧ printable f.b = true ∧ printable f.c = true ∧
      printable f.d = true ∧
      f.code = f.a.toNat + f.b.toNat * 2 ^ 8 + f.c.toNat * 2 ^ 16 + f.d.toNat * 2 ^ 24
        + (if f.be then 2 ^ 31 else 0) ∧
      f.code.testBit 31 = f.be) ∧
    (fourcc_table.filter (fun f => f.code.testBit 31)).map (fun f => f.name)
      = ["V4L2_PIX_FMT_ARGB555X", "V4L2_PIX_FMT_XRGB555X", "V4L2_PIX_FMT_Y16_BE",
         "V4L2_PIX_FMT_QTEC_GREEN16_BE"] ∧
    (fourcc_lookup "V4L2_PIX_FMT_ARGB555" = some V4L2_PIX_FMT_ARGB555 ∧
      fourcc_lookup "V4L2_PIX_FMT_ARGB555X" = some V4L2_PIX_FMT_ARGB555X ∧
      V4L2_PIX_FMT_ARGB555X = V4L2_PIX_FMT_ARGB555 + 0x80000000) ∧
    (fourcc_lookup "V4L2_PIX_FMT_XRGB555" = some V4L2_PIX_FMT_XRGB555 ∧
      fourcc_lookup "V4L2_PIX_FMT_XRGB555X" = some V4L2_PIX_FMT_XRGB555X ∧
      V4L2_PIX_FMT_XRGB555X = V4L2_PIX_FMT_XRGB555 + 0x80000000) ∧
    (fourcc_lookup "V4L2_PIX_FMT_Y16" = some V4L2_PIX_FMT_Y16 ∧
      fourcc_lookup "V4L2_PIX_FMT_Y16_BE" = some V4L2_PIX_FMT_Y16_BE ∧
      V4L2_PIX_FMT_Y16_BE = V4L2_PIX_FMT_Y16 + 0x80000000) ∧
    (fourcc_lookup "V4L2_PIX_FMT_QTEC_GREEN16" = some V4L2_PIX_FMT_QTEC_GREEN16 ∧
      fourcc_lookup "V4L2_PIX_FMT_QTEC_GREEN16_BE" = some V4L2_PIX_FMT_QTEC_GREEN16_BE ∧
      V4L2_PIX_FMT_QTEC_GREEN16_BE = V4L2_PIX_FMT_QTEC_GREEN16 + 0x80000000) ∧
    fourcc_lookup "V4L2_PIX_FMT_YUYV" = some V4L2_PIX_FMT_YUYV ∧
    V4L2_PIX_FMT_YUYV = 0x56595559 ∧
    V4L2_PIX_FMT_Y16_BE = 0xA0363159 := by
  refine ⟨by decide, by decide, by decide, by decide, by decide, by decide, by decide,
    by decide, by decide, by decide⟩

/-! ## Default-resolution macros -/

/-- C6: `V4L2_MAP_COLORSPACE_DEFAULT(is_sdtv, is_hdtv)` is SMPTE170M when
`is_sdtv` holds (whatever `is_hdtv` is), otherwise REC709 when `is_hdtv` holds,
otherwise SRGB. -/
theorem map_colorspace_default (is_sdtv is_hdtv : Int) :
    (is_sdtv ≠ 0 →
      V4L2_MAP_COLORSPACE_DEFAULT is_sdtv is_hdtv = V4L2_COLORSPACE_SMPTE170M) ∧
    (is_sdtv = 0 → is_hdtv ≠ 0 →
      V4L2_MAP_COLORSPACE_DEFAULT is_sdtv is_hdtv = V4L2_COLORSPACE_REC709) ∧
    (is_sdtv = 0 → is_hdtv = 0 →
      V4L2_MAP_COLORSPACE_DEFAULT is_sdtv is_hdtv = V4L2_COLORSPACE_SRGB) := by
  unfold V4L2_MAP_COLORSPACE_DEFAULT
  refine ⟨fun h => if_pos h, fun h1 h2 => ?_, fun h1 h2 => ?_⟩
  · rw [if_neg (not_not.mpr h1), if_pos h2]
  · rw [if_neg (not_not.mpr h1), if_neg (not_not.mpr h2)]

/-- The colorspace default on the four combinations of the C truth values 0 and 1. -/
theorem map_colorspace_default_witness :
    V4L2_MAP_COLORSPACE_DEFAULT 1 1 = 1 ∧ V4L2_MAP_COLORSPACE_DEFAULT 1 0 = 1 ∧
    V4L2_MAP_COLORSPACE_DEFAULT 0 1 = 3 ∧ V4L2_MAP_COLORSPACE_DEFAULT 0 0 = 8 :=
  ⟨(map_colorspace_default 1 1).1 (by decide), (map_colorspace_default 1 0).1 (by decide),
    (map_colorspace_default 0 1).2.1 rfl (by decide), (map_colorspace_default 0 0).2.2 rfl rfl⟩

/-- C7: `V4L2_MAP_XFER_FUNC_DEFAULT(colsp)` is NONE for RAW, ADOBERGB for
ADOBERGB, SMPTE240M for SMPTE240M, SRGB for SRGB and for JPEG, and
`V4L2_XFER_FUNC_709` for every other value, in particular for SMPTE170M,
470_SYSTEM_M, 470_SYSTEM_BG, REC709 and BT2020. -/
theorem map_xfer_func_default (colsp : Nat) :
    V4L2_MAP_XFER_FUNC_DEFAULT V4L2_COLORSPACE_RAW = V4L2_XFER_FUNC_NONE ∧
    V4L2_MAP_XFER_FUNC_DEFAULT V4L2_COLORSPACE_ADOBERGB = V4L2_XFER_FUNC_ADOBERGB ∧
    V4L2_MAP_XFER_FUNC_DEFAULT V4L2_COLORSPACE_SMPTE240M = V4L2_XFER_FUNC_SMPTE240M ∧
    V4L2_MAP_XFER_FUNC_DEFAULT V4L2_COLORSPACE_SRGB = V4L2_XFER_FUNC_SRGB ∧
    V4L2_MAP_XFER_FUNC_DEFAULT V4L2_COLORSPACE_JPEG = V4L2_XFER_FUNC_SRGB ∧
    (colsp ≠ V4L2_COLORSPACE_RAW → colsp ≠ V4L2_COLORSPACE_ADOBERGB →
      colsp ≠ V4L2_COLORSPACE_SMPTE240M → colsp ≠ V4L2_COLORSPACE_SRGB →
      colsp ≠ V4L2_COLORSPACE_JPEG →
      V4L2_MAP_XFER_FUNC_DEFAULT colsp = V4L2_XFER_FUNC_709) ∧
    V4L2_MAP_XFER_FUNC_DEFAULT V4L2_COLORSPACE_SMPTE170M = V4L2_XFER_FUNC_709 ∧
    V4L2_MAP_XFER_FUNC_DEFAULT V4L2_COLORSPACE_470_SYSTEM_M = V4L2_XFER_FUNC_709 ∧
    V4L2_MAP_XFER_FUNC_DEFAULT V4L2_COLORSPACE_470_SYSTEM_BG = V4L2_XFER_FUNC_709 ∧
    V4L2_MAP_XFER_FUNC_DEFAULT V4L2_COLORSPACE_REC709 = V4L2_XFER_FUNC_709 ∧
    V4L2_MAP_XFER_FUNC_DEFAULT V4L2_COLORSPACE_BT2020 = V4L2_XFER_FUNC_709 := by
  refine ⟨by decide, by decide, by decide, by decide, by decide, ?_, by decide, by decide,
    by decide, by decide, by decide⟩
  intro h1 h2 h3 h4 h5
  unfold V4L2_MAP_XFER_FUNC_DEFAULT
  rw [if_neg h2, if_neg h3, if_neg h1, if_neg (not_or.mpr ⟨h4, h5⟩)]

/-- C8: `V4L2_MAP_YCBCR_ENC_DEFAULT(colsp)` is `V4L2_YCBCR_ENC_709` for REC709,
`V4L2_YCBCR_ENC_BT2020` for BT2020, `V4L2_YCBCR_ENC_SMPTE240M` for SMPTE240M, and
`V4L2_YCBCR_ENC_601` for every other value. -/
theorem map_ycbcr_enc_default (colsp : Nat) :
    V4L2_MAP_YCBCR_ENC_DEFAULT V4L2_COLORSPACE_REC709 = V4L2_YCBCR_ENC_709 ∧
    V4L2_MAP_YCBCR_ENC_DEFAULT V4L2_COLORSPACE_BT2020 = V4L2_YCBCR_ENC_BT2020 ∧
    V4L2_MAP_YCBCR_ENC_DEFAULT V4L2_COLORSPACE_SMPTE240M = V4L2_YCBCR_ENC_SMPTE240M ∧
    (colsp ≠ V4L2_COLORSPACE_REC709 → colsp ≠ V4L2_COLORSPACE_BT2020 →
      colsp ≠ V4L2_COLORSPACE_SMPTE240M →
      V4L2_MAP_YCBCR_ENC_DEFAULT colsp = V4L2_YCBCR_ENC_601) := by
  refine ⟨by decide, by decide, by decide, ?_⟩
  intro h1 h2 h3
  unfold V4L2_MAP_YCBCR_ENC_DEFAULT
  rw [if_neg h1, if_neg h2, if_neg h3]

/-- C9: evaluation of `V4L2_MAP_YCBCR_ENC_DEFAULT` against the mapping documented
in the comment of `enum v4l2_ycbcr_encoding`.  The macro agrees with every
documented row except `V4L2_COLORSPACE_SRGB`, which the comment maps to
`V4L2_YCBCR_ENC_SYCC` and the macro maps to `V4L2_YCBCR_ENC_601`. -/
theorem map_ycbcr_enc_default_vs_doc :
    V4L2_MAP_YCBCR_ENC_DEFAULT V4L2_COLORSPACE_SRGB = V4L2_YCBCR_ENC_601 ∧
    V4L2_MAP_YCBCR_ENC_DEFAULT V4L2_COLORSPACE_SRGB ≠ V4L2_YCBCR_ENC_SYCC ∧
    ycbcr_enc_doc_table.filter (fun p => V4L2_MAP_YCBCR_ENC_DEFAULT p.1 != p.2)
      = [(V4L2_COLORSPACE_SRGB, V4L2_YCBCR_ENC_SYCC)] := by
  refine ⟨by decide, by decide, by decide⟩

/-- C10: `V4L2_MAP_QUANTIZATION_DEFAULT(is_rgb, colsp, ycbcr_enc)` is LIM_RANGE
when `is_rgb` holds and `colsp` is BT2020; otherwise FULL_RANGE when `is_rgb`
holds, or `ycbcr_enc` is XV601 or XV709, or `colsp` is JPEG; otherwise
LIM_RANGE. -/
theorem map_quantization_default (is_rgb : Int) (colsp ycbcr_enc : Nat) :
    (is_rgb ≠ 0 ∧ colsp = V4L2_COLORSPACE_BT2020 →
      V4L2_MAP_QUANTIZATION_DEFAULT is_rgb colsp ycbcr_enc = V4L2_QUANTIZATION_LIM_RANGE) ∧
    (¬(is_rgb ≠ 0 ∧ colsp = V4L2_COLORSPACE_BT2020) →
      (is_rgb ≠ 0 ∨ ycbcr_enc = V4L2_YCBCR_ENC_XV601 ∨ ycbcr_enc = V4L2_YCBCR_ENC_XV709 ∨
        colsp = V4L2_COLORSPACE_JPEG) →
      V4L2_MAP_QUANTIZATION_DEFAULT is_rgb colsp ycbcr_enc = V4L2_QUANTIZATION_FULL_RANGE) ∧
    (¬(is_rgb ≠ 0 ∧ colsp = V4L2_COLORSPACE_BT2020) →
      ¬(is_rgb ≠ 0 ∨ ycbcr_enc = V4L2_YCBCR_ENC_XV601 ∨ ycbcr_enc = V4L2_YCBCR_ENC_XV709 ∨
        colsp = V4L2_COLORSPACE_JPEG) →
      V4L2_MAP_QUANTIZATION_DEFAULT is_rgb colsp ycbcr_enc = V4L2_QUANTIZATION_LIM_RANGE) := by
  unfold V4L2_MAP_QUANTIZATION_DEFAULT
  refine ⟨fun h => if_pos h, fun h1 h2 => ?_, fun h1 h2 => ?_⟩
  · rw [if_neg h1, if_pos h2]
  · rw [if_neg h1, if_neg h2]

/-- The quantization default on one input of each of the three branches. -/
theorem map_quantization_default_witness :
    V4L2_MAP_QUANTIZATION_DEFAULT 1 V4L2_COLORSPACE_BT2020 V4L2_YCBCR_ENC_XV601 = 2 ∧
    V4L2_MAP_QUANTIZATION_DEFAULT 0 V4L2_COLORSPACE_BT2020 V4L2_YCBCR_ENC_XV601 = 1 ∧
    V4L2_MAP_QUANTIZATION_DEFAULT 0 V4L2_COLORSPACE_BT2020 V4L2_YCBCR_ENC_BT2020 = 2 :=
  ⟨(map_quantization_default 1 V4L2_COLORSPACE_BT2020 V4L2_YCBCR_ENC_XV601).1
      (by decide),
    (map_quantization_default 0 V4L2_COLORSPACE_BT2020 V4L2_YCBCR_ENC_XV601).2.1
      (by decide) (by decide),
    (map_quantization_default 0 V4L2_COLORSPACE_BT2020 V4L2_YCBCR_ENC_BT2020).2.2
      (by decide) (by decide)⟩

/-- C11: quantization tie-breaks.  With `is_rgb` true and colorspace BT2020 the
result is LIM_RANGE for every `ycbcr_enc`, XV601 and XV709 included; with
`is_rgb` false and colorspace JPEG the result is FULL_RANGE for every
`ycbcr_enc`. -/
theorem map_quantization_tie_breaks (ycbcr_enc : Nat) :
    (∀ is_rgb : Int, is_rgb ≠ 0 →
      V4L2_MAP_QUANTIZATION_DEFAULT is_rgb V4L2_COLORSPACE_BT2020 ycbcr_enc
        = V4L2_QUANTIZATION_LIM_RANGE) ∧
    V4L2_MAP_QUANTIZATION_DEFAULT 1 V4L2_COLORSPACE_BT2020 ycbcr_enc
      = V4L2_QUANTIZATION_LIM_RANGE ∧
    V4L2_MAP_QUANTIZATION_DEFAULT 1 V4L2_COLORSPACE_BT2020 V4L2_YCBCR_ENC_XV601
      = V4L2_QUANTIZATION_LIM_RANGE ∧
    V4L2_MAP_QUANTIZATION_DEFAULT 1 V4L2_COLORSPACE_BT2020 V4L2_YCBCR_ENC_XV709
      = V4L2_QUANTIZATION_LIM_RANGE ∧
    V4L2_MAP_QUANTIZATION_DEFAULT 0 V4L2_COLORSPACE_BT2020 V4L2_YCBCR_ENC_XV601
      = V4L2_QUANTIZATION_FULL_RANGE ∧
    V4L2_MAP_QUANTIZATION_DEFAULT 0 V4L2_COLORSPACE_BT2020 V4L2_YCBCR_ENC_XV709
      = V4L2_QUANTIZATION_FULL_RANGE ∧
    V4L2_MAP_QUANTIZATION_DEFAULT 0 V4L2_COLORSPACE_JPEG ycbcr_enc
      = V4L2_QUANTIZATION_FULL_RANGE := by
  have hrgb : ∀ is_rgb : Int, is_rgb ≠ 0 →
      V4L2_MAP_QUANTIZATION_DEFAULT is_rgb V4L2_COLORSPACE_BT2020 ycbcr_enc
        = V4L2_QUANTIZATION_LIM_RANGE := by
    intro is_rgb h
    unfold V4L2_MAP_QUANTIZATION_DEFAULT
    rw [if_pos ⟨h, rfl⟩]
  refine ⟨hrgb, hrgb 1 (by decide), by decide, by decide, by decide, by decide, ?_⟩
  unfold V4L2_MAP_QUANTIZATION_DEFAULT
  rw [if_neg (by decide), if_pos (Or.inr (Or.inr (Or.inr rfl)))]

/-- C12: evaluation of `V4L2_MAP_QUANTIZATION_DEFAULT` for Y'CbCr images against
the comment of `enum v4l2_quantization`, which names COLORSPACE_JPEG, SYCC,
XV601 and XV709 as the full-range exceptions.  The macro returns FULL_RANGE for
a Y'CbCr image exactly when the colorspace is JPEG or the encoding is XV601 or
XV709; for the encoding SYCC with colorspace SRGB it returns LIM_RANGE. -/
theorem map_quantization_default_ycbcr_vs_doc :
    V4L2_MAP_QUANTIZATION_DEFAULT 0 V4L2_COLORSPACE_SRGB V4L2_YCBCR_ENC_SYCC
      = V4L2_QUANTIZATION_LIM_RANGE ∧
    V4L2_MAP_QUANTIZATION_DEFAULT 0 V4L2_COLORSPACE_SRGB V4L2_YCBCR_ENC_SYCC
      ≠ V4L2_QUANTIZATION_FULL_RANGE ∧
    (∀ colsp ycbcr_enc : Nat,
      V4L2_MAP_QUANTIZATION_DEFAULT 0 colsp ycbcr_enc = V4L2_QUANTIZATION_FULL_RANGE ↔
        (colsp = V4L2_COLORSPACE_JPEG ∨ ycbcr_enc = V4L2_YCBCR_ENC_XV601 ∨
          ycbcr_enc = V4L2_YCBCR_ENC_XV709)) := by
  refine ⟨by decide, by decide, ?_⟩
  intro colsp ycbcr_enc
  unfold V4L2_MAP_QUANTIZATION_DEFAULT
  rw [if_neg (fun h => h.1 rfl)]
  constructor
  · intro h
    split at h
    · next hc =>
      rcases hc with hc | hc | hc | hc
      · exact absurd rfl hc
      · exact Or.inr (Or.inl hc)
      · exact Or.inr (Or.inr hc)
      · exact Or.inl hc
    · exact absurd h (by decide)
  · intro h
    rw [if_pos]
    rcases h with h | h | h
    · exact Or.inr (Or.inr (Or.inr h))
    · exact Or.inr (Or.inl h)
    · exact Or.inr (Or.inr (Or.inl h))

/-- C13: the four default-resolution macros never return the DEFAULT sentinel
(0).  For all inputs `V4L2_MAP_COLORSPACE_DEFAULT` returns one of SMPTE170M,
REC709, SRGB; `V4L2_MAP_XFER_FUNC_DEFAULT` one of 709, SRGB, ADOBERGB, SMPTE240M,
NONE; `V4L2_MAP_YCBCR_ENC_DEFAULT` one of 601, 709, BT2020, SMPTE240M;
`V4L2_MAP_QUANTIZATION_DEFAULT` one of FULL_RANGE, LIM_RANGE. -/
theorem map_default_concrete (is_sdtv is_hdtv is_rgb : Int) (colsp ycbcr_enc : Nat) :
    (V4L2_MAP_COLORSPACE_DEFAULT is_sdtv is_hdtv
        ∈ [V4L2_COLORSPACE_SMPTE170M, V4L2_COLORSPACE_REC709, V4L2_COLORSPACE_SRGB] ∧
      V4L2_MAP_COLORSPACE_DEFAULT is_sdtv is_hdtv ≠ V4L2_COLORSPACE_DEFAULT) ∧
    (V4L2_MAP_XFER_FUNC_DEFAULT colsp
        ∈ [V4L2_XFER_FUNC_709, V4L2_XFER_FUNC_SRGB, V4L2_XFER_FUNC_ADOBERGB,
            V4L2_XFER_FUNC_SMPTE240M, V4L2_XFER_FUNC_NONE] ∧
      V4L2_MAP_XFER_FUNC_DEFAULT colsp ≠ V4L2_XFER_FUNC_DEFAULT) ∧
    (V4L2_MAP_YCBCR_ENC_DEFAULT colsp
        ∈ [V4L2_YCBCR_ENC_601, V4L2_YCBCR_ENC_709, V4L2_YCBCR_ENC_BT2020,
            V4L2_YCBCR_ENC_SMPTE240M] ∧
      V4L2_MAP_YCBCR_ENC_DEFAULT colsp ≠ V4L2_YCBCR_ENC_DEFAULT) ∧
    (V4L2_MAP_QUANTIZATION_DEFAULT is_rgb colsp ycbcr_enc
        ∈ [V4L2_QUANTIZATION_FULL_RANGE, V4L2_QUANTIZATION_LIM_RANGE] ∧
      V4L2_MAP_QUANTIZATION_DEFAULT is_rgb colsp ycbcr_enc ≠ V4L2_QUANTIZATION_DEFAULT) := by
  refine ⟨?_, ?_, ?_, ?_⟩
  · unfold V4L2_MAP_COLORSPACE_DEFAULT
    split_ifs <;> exact ⟨by decide, by decide⟩
  · unfold V4L2_MAP_XFER_FUNC_DEFAULT
    split_ifs <;> exact ⟨by decide, by decide⟩
  · unfold V4L2_MAP_YCBCR_ENC_DEFAULT
    split_ifs <;> exact ⟨by decide, by decide⟩
  · unfold V4L2_MAP_QUANTIZATION_DEFAULT
    split_ifs <;> exact ⟨by decide, by decide⟩

/-- C14: `V4L2_COLORSPACE_JPEG` resolves as sRGB + 601 + full range: the transfer
function default of JPEG equals that of SRGB, the Y'CbCr encoding default of
JPEG is `V4L2_YCBCR_ENC_601`, and the quantization default for colorspace JPEG
is FULL_RANGE for every `is_rgb` and every `ycbcr_enc`. -/
theorem colorspace_jpeg_shorthand (is_rgb : Int) (ycbcr_enc : Nat) :
    V4L2_MAP_XFER_FUNC_DEFAULT V4L2_COLORSPACE_JPEG
      = V4L2_MAP_XFER_FUNC_DEFAULT V4L2_COLORSPACE_SRGB ∧
    V4L2_MAP_XFER_FUNC_DEFAULT V4L2_COLORSPACE_JPEG = V4L2_XFER_FUNC_SRGB ∧
    V4L2_MAP_YCBCR_ENC_DEFAULT V4L2_COLORSPACE_JPEG = V4L2_YCBCR_ENC_601 ∧
    V4L2_MAP_QUANTIZATION_DEFAULT is_rgb V4L2_COLORSPACE_JPEG ycbcr_enc
      = V4L2_QUANTIZATION_FULL_RANGE := by
  refine ⟨by decide, by decide, by decide, ?_⟩
  unfold V4L2_MAP_QUANTIZATION_DEFAULT
  rw [if_neg (fun h => absurd h.2 (by decide)), if_pos (Or.inr (Or.inr (Or.inr rfl)))]

/-! ## Control identifiers -/

/-- Masking with the low 28 bits discards any multiple of `2 ^ 28` OR-ed into a
28-bit value. -/
theorem or_high_and_mask {x : Nat} (hx : x < 2 ^ 28) (k : Nat) :
    (x ||| 2 ^ 28 * k) &&& (2 ^ 28 - 1) = x := by
  rw [Nat.or_comm, ← Nat.mul_add_lt_is_or hx k, Nat.and_pow_two_sub_one_eq_mod]
  omega

/-- The class mask `0x0fff0000` keeps bits 16 to 27 in place. -/
theorem and_class_mask (x : Nat) : x &&& 0x0fff0000 = (x / 2 ^ 16 % 2 ^ 12) * 2 ^ 16 := by
  have hm : (0x0fff0000 : Nat) = (2 ^ 12 - 1) <<< 16 := by decide
  rw [hm, ← Nat.shiftRight_eq_div_pow, ← Nat.shiftLeft_eq]
  apply Nat.eq_of_testBit_eq
  intro i
  rw [Nat.testBit_and, Nat.testBit_shiftLeft, Nat.testBit_shiftLeft,
    Nat.testBit_two_pow_sub_one, Nat.testBit_mod_two_pow, Nat.testBit_shiftRight]
  by_cases h : 16 ≤ i
  · have hi : 16 + (i - 16) = i := by omega
    rw [hi]
    cases x.testBit i <;> simp [h]
  · simp [h]

/-- C15: control-ID masking.  `V4L2_CTRL_ID_MASK` is `2^28 - 1`; the query flags
`V4L2_CTRL_FLAG_NEXT_CTRL` (`2^31`) and `V4L2_CTRL_FLAG_NEXT_COMPOUND` (`2^30`)
lie in the top 4 bits and are disjoint from the mask; hence for every 28-bit
`id` and any combination of the two flags OR-ed in,
`(id | flags) & V4L2_CTRL_ID_MASK` is `id`. -/
theorem ctrl_id_mask (id : Nat) (hid : id < 2 ^ 28) :
    V4L2_CTRL_ID_MASK = 2 ^ 28 - 1 ∧
    V4L2_CTRL_FLAG_NEXT_CTRL = 2 ^ 31 ∧
    V4L2_CTRL_FLAG_NEXT_COMPOUND = 2 ^ 30 ∧
    V4L2_CTRL_FLAG_NEXT_CTRL &&& 0xf0000000 = V4L2_CTRL_FLAG_NEXT_CTRL ∧
    V4L2_CTRL_FLAG_NEXT_COMPOUND &&& 0xf0000000 = V4L2_CTRL_FLAG_NEXT_COMPOUND ∧
    V4L2_CTRL_FLAG_NEXT_CTRL &&& V4L2_CTRL_ID_MASK = 0 ∧
    V4L2_CTRL_FLAG_NEXT_COMPOUND &&& V4L2_CTRL_ID_MASK = 0 ∧
    id &&& V4L2_CTRL_ID_MASK = id ∧
    (id ||| V4L2_CTRL_FLAG_NEXT_CTRL) &&& V4L2_CTRL_ID_MASK = id ∧
    (id ||| V4L2_CTRL_FLAG_NEXT_COMPOUND) &&& V4L2_CTRL_ID_MASK = id ∧
    (id ||| (V4L2_CTRL_FLAG_NEXT_CTRL ||| V4L2_CTRL_FLAG_NEXT_COMPOUND))
      &&& V4L2_CTRL_ID_MASK = id := by
  have hmask : V4L2_CTRL_ID_MASK = 2 ^ 28 - 1 := by decide
  have h0 : (0 : Nat) = 2 ^ 28 * 0 := by decide
  have h1 : V4L2_CTRL_FLAG_NEXT_CTRL = 2 ^ 28 * 8 := by decide
  have h2 : V4L2_CTRL_FLAG_NEXT_COMPOUND = 2 ^ 28 * 4 := by decide
  have h3 : V4L2_CTRL_FLAG_NEXT_CTRL ||| V4L2_CTRL_FLAG_NEXT_COMPOUND = 2 ^ 28 * 12 := by
    decide
  refine ⟨hmask, by decide, by decide, by decide, by decide, by decide, by decide,
    ?_, ?_, ?_, ?_⟩
  · have h := or_high_and_mask hid 0
    rw [← h0, Nat.or_zero] at h
    rw [hmask]
    exact h
  · rw [hmask, h1]
    exact or_high_and_mask hid 8
  · rw [hmask, h2]
    exact or_high_and_mask hid 4
  · rw [hmask, h3]
    exact or_high_and_mask hid 12

/-- Control-ID masking at `V4L2_CID_PRIVATE_BASE = 0x08000000` and at the largest
28-bit identifier. -/
theorem ctrl_id_mask_witness :
    (0x08000000 ||| V4L2_CTRL_FLAG_NEXT_CTRL) &&& V4L2_CTRL_ID_MASK = 0x08000000 ∧
    (0x0fffffff ||| (V4L2_CTRL_FLAG_NEXT_CTRL ||| V4L2_CTRL_FLAG_NEXT_COMPOUND))
      &&& V4L2_CTRL_ID_MASK = 0x0fffffff :=
  ⟨(ctrl_id_mask 0x08000000 (by decide)).2.2.2.2.2.2.2.2.1,
    (ctrl_id_mask 0x0fffffff (by decide)).2.2.2.2.2.2.2.2.2.2⟩

/-- C16: for every `id`, `V4L2_CTRL_ID2CLASS(id)` is `id & 0x0fff0000`, that is
bits 16 to 27 of `id` kept in place, and `V4L2_CTRL_DRIVER_PRIV(id)` holds
exactly when the low 16 bits of `id` are at least `0x1000`.  At the boundary
identifiers: `ID2CLASS(0x00fff000) = 0x00ff0000` with DRIVER_PRIV true,
`ID2CLASS(0x00000fff) = 0` with DRIVER_PRIV false, and `DRIVER_PRIV(0x1000)` is
true. -/
theorem ctrl_id2class_driver_priv (id : Nat) :
    V4L2_CTRL_ID2CLASS id = id &&& 0x0fff0000 ∧
    V4L2_CTRL_ID2CLASS id = (id / 2 ^ 16 % 2 ^ 12) * 2 ^ 16 ∧
    (V4L2_CTRL_DRIVER_PRIV id = true ↔ 0x1000 ≤ id % 2 ^ 16) ∧
    V4L2_CTRL_ID2CLASS 0x00fff000 = 0x00ff0000 ∧
    V4L2_CTRL_DRIVER_PRIV 0x00fff000 = true ∧
    V4L2_CTRL_ID2CLASS 0x00000fff = 0 ∧
    V4L2_CTRL_DRIVER_PRIV 0x00000fff = false ∧
    V4L2_CTRL_DRIVER_PRIV 0x1000 = true := by
  refine ⟨rfl, and_class_mask id, ?_, by decide, by decide, by decide, by decide, by decide⟩
  unfold V4L2_CTRL_DRIVER_PRIV
  have hm : id &&& 0xffff = id % 2 ^ 16 := Nat.and_pow_two_sub_one_eq_mod id 16
  rw [hm, decide_eq_true_iff]

/-! ## Analog video standards -/

/-- C17: the 26 primitive standards `V4L2_STD_PAL_B` ... `V4L2_STD_ATSC_16_VSB`
are the single bits `2^0` ... `2^25` in declaration order, pairwise disjoint, and
the aggregates are fixed unions of them: `V4L2_STD_PAL = 0xFF` (B, B1, G, H, I,
D, D1, K), `V4L2_STD_NTSC = 0xB000` (M, M_JP, M_KR), `V4L2_STD_SECAM = 0xFF0000`
(the eight SECAM bits). -/
theorem std_primitive_bits :
    std_primitives.length = 26 ∧
    std_primitives = (List.range 26).map (fun i => 2 ^ i) ∧
    std_primitives.Pairwise (fun x y => x &&& y = 0) ∧
    V4L2_STD_PAL = 0xFF ∧
    V4L2_STD_PAL = (V4L2_STD_PAL_B ||| V4L2_STD_PAL_B1 ||| V4L2_STD_PAL_G |||
      V4L2_STD_PAL_H ||| V4L2_STD_PAL_I ||| V4L2_STD_PAL_D ||| V4L2_STD_PAL_D1 |||
      V4L2_STD_PAL_K) ∧
    V4L2_STD_NTSC = 0xB000 ∧
    V4L2_STD_NTSC = (V4L2_STD_NTSC_M ||| V4L2_STD_NTSC_M_JP ||| V4L2_STD_NTSC_M_KR) ∧
    V4L2_STD_SECAM = 0xFF0000 ∧
    V4L2_STD_SECAM = (V4L2_STD_SECAM_B ||| V4L2_STD_SECAM_D ||| V4L2_STD_SECAM_G |||
      V4L2_STD_SECAM_H ||| V4L2_STD_SECAM_K ||| V4L2_STD_SECAM_K1 |||
      V4L2_STD_SECAM_L ||| V4L2_STD_SECAM_LC) := by
  refine ⟨by decide, by decide, by decide, by decide, by decide, by decide, by decide,
    by decide, by decide⟩

/-- C18: `V4L2_STD_ALL` is the set of all analog standards: it equals
`0x00FFFFFF`, the OR of the 24 PAL/NTSC/SECAM primitive bits; it is the disjoint
union of `V4L2_STD_525_60` and `V4L2_STD_625_50`; and it contains neither ATSC
bit. -/
theorem std_all_analog :
    V4L2_STD_ALL = 0x00FFFFFF ∧
    (std_primitives.take 24).foldl (fun x y => x ||| y) 0 = V4L2_STD_ALL ∧
    V4L2_STD_525_60 &&& V4L2_STD_625_50 = 0 ∧
    V4L2_STD_525_60 ||| V4L2_STD_625_50 = V4L2_STD_ALL ∧
    V4L2_STD_525_60 = 0xF900 ∧
    V4L2_STD_625_50 = 0xFF06FF ∧
    V4L2_STD_ALL &&& V4L2_STD_ATSC = 0 ∧
    V4L2_STD_ALL &&& V4L2_STD_ATSC_8_VSB = 0 ∧
    V4L2_STD_ALL &&& V4L2_STD_ATSC_16_VSB = 0 := by
  refine ⟨by decide, by decide, by decide, by decide, by decide, by decide, by decide,
    by decide, by decide⟩

/-- C19: the "common" aggregates omit the standards their comments name:
`V4L2_STD_NTSC` does not contain `V4L2_STD_NTSC_443`, and `V4L2_STD_PAL` contains
none of `V4L2_STD_PAL_M`, `V4L2_STD_PAL_N`, `V4L2_STD_PAL_Nc`. -/
theorem std_common_omissions :
    V4L2_STD_NTSC &&& V4L2_STD_NTSC_443 = 0 ∧
    V4L2_STD_PAL &&& V4L2_STD_PAL_M = 0 ∧
    V4L2_STD_PAL &&& V4L2_STD_PAL_N = 0 ∧
    V4L2_STD_PAL &&& V4L2_STD_PAL_Nc = 0 := by
  refine ⟨by decide, by decide, by decide, by decide⟩

/-! ## DV BT timings -/

/-- C20: for every `struct v4l2_bt_timings` value `bt`,
`V4L2_DV_BT_FRAME_HEIGHT(bt)` is
`height + vfrontporch + vsync + vbackporch + il_vfrontporch + il_vsync + il_vbackporch`
modulo `2^32`; it is the exact total height whenever that sum is below `2^32`;
and it is `height + V4L2_DV_BT_BLANKING_HEIGHT(bt)` in 32-bit arithmetic. -/
theorem dv_bt_frame_height (bt : v4l2_bt_timings) :
    V4L2_DV_BT_FRAME_HEIGHT bt = tot_height bt % 2 ^ 32 ∧
    (tot_height bt < 2 ^ 32 → V4L2_DV_BT_FRAME_HEIGHT bt = tot_height bt) ∧
    V4L2_DV_BT_FRAME_HEIGHT bt = (bt.height + V4L2_DV_BT_BLANKING_HEIGHT bt) % 2 ^ 32 ∧
    (tot_height bt < 2 ^ 32 →
      V4L2_DV_BT_FRAME_HEIGHT bt = bt.height + V4L2_DV_BT_BLANKING_HEIGHT bt) := by
  have hdef : V4L2_DV_BT_FRAME_HEIGHT bt
      = (bt.height + V4L2_DV_BT_BLANKING_HEIGHT bt) % 2 ^ 32 := rfl
  have hmod : V4L2_DV_BT_FRAME_HEIGHT bt = tot_height bt % 2 ^ 32 := by
    simp only [V4L2_DV_BT_FRAME_HEIGHT, V4L2_DV_BT_BLANKING_HEIGHT, add32, tot_height]
    omega
  refine ⟨hmod, fun h => ?_, hdef, fun h => ?_⟩
  · rw [hmod]
    exact Nat.mod_eq_of_lt h
  · have hb : V4L2_DV_BT_BLANKING_HEIGHT bt
        = bt.vfrontporch + bt.vsync + bt.vbackporch + bt.il_vfrontporch + bt.il_vsync
          + bt.il_vbackporch := by
      simp only [V4L2_DV_BT_BLANKING_HEIGHT, add32]
      simp only [tot_height] at h
      omega
    rw [hmod, hb]
    simp only [tot_height] at h ⊢
    omega

/-- The frame height of the 1080i50 timings is 1125 lines, and a frame whose
exact total height is `2^32` wraps to 0. -/
theorem dv_bt_frame_height_witness :
    V4L2_DV_BT_FRAME_HEIGHT bt_1080i50 = 1125 ∧
    V4L2_DV_BT_FRAME_HEIGHT
      (v4l2_bt_timings.mk 0 0xffffffff 0 0 0 0 0 0 1 0 0 0 0 0 0 0 (List.replicate 14 0))
      = 0 :=
  ⟨(dv_bt_frame_height bt_1080i50).2.1 (by decide), by decide⟩

/-- C21: for every `struct v4l2_bt_timings` value `bt`,
`V4L2_DV_BT_FRAME_WIDTH(bt)` is `width + hfrontporch + hsync + hbackporch` modulo
`2^32`, which is `width + V4L2_DV_BT_BLANKING_WIDTH(bt)` in 32-bit arithmetic;
whenever the exact sum is below `2^32` the frame width is at least the active
width and at least the blanking width. -/
theorem dv_bt_frame_width (bt : v4l2_bt_timings) :
    V4L2_DV_BT_FRAME_WIDTH bt
      = (bt.width + bt.hfrontporch + bt.hsync + bt.hbackporch) % 2 ^ 32 ∧
    V4L2_DV_BT_FRAME_WIDTH bt = (bt.width + V4L2_DV_BT_BLANKING_WIDTH bt) % 2 ^ 32 ∧
    (bt.width + bt.hfrontporch + bt.hsync + bt.hbackporch < 2 ^ 32 →
      V4L2_DV_BT_FRAME_WIDTH bt = bt.width + bt.hfrontporch + bt.hsync + bt.hbackporch ∧
      V4L2_DV_BT_FRAME_WIDTH bt = bt.width + V4L2_DV_BT_BLANKING_WIDTH bt ∧
      bt.width ≤ V4L2_DV_BT_FRAME_WIDTH bt ∧
      V4L2_DV_BT_BLANKING_WIDTH bt ≤ V4L2_DV_BT_FRAME_WIDTH bt) := by
  have hdef : V4L2_DV_BT_FRAME_WIDTH bt
      = (bt.width + V4L2_DV_BT_BLANKING_WIDTH bt) % 2 ^ 32 := rfl
  have hmod : V4L2_DV_BT_FRAME_WIDTH bt
      = (bt.width + bt.hfrontporch + bt.hsync + bt.hbackporch) % 2 ^ 32 := by
    simp only [V4L2_DV_BT_FRAME_WIDTH, V4L2_DV_BT_BLANKING_WIDTH, add32]
    omega
  refine ⟨hmod, hdef, fun h => ?_⟩
  have hb : V4L2_DV_BT_BLANKING_WIDTH bt = bt.hfrontporch + bt.hsync + bt.hbackporch := by
    simp only [V4L2_DV_BT_BLANKING_WIDTH, add32]
    omega
  have hw : V4L2_DV_BT_FRAME_WIDTH bt
      = bt.width + bt.hfrontporch + bt.hsync + bt.hbackporch := by
    rw [hmod]
    exact Nat.mod_eq_of_lt h
  refine ⟨hw, ?_, ?_, ?_⟩
  · rw [hw, hb]
    omega
  · rw [hw]
    omega
  · rw [hw, hb]
    omega

/-- The frame width of the 1080i50 timings is 2640 pixels, and a width whose
exact total is `2^32` wraps to 0, below the active width. -/
theorem dv_bt_frame_width_witness :
    V4L2_DV_BT_FRAME_WIDTH bt_1080i50 = 2640 ∧
    V4L2_DV_BT_FRAME_WIDTH
      (v4l2_bt_timings.mk 0xffffffff 0 0 0 0 1 0 0 0 0 0 0 0 0 0 0 (List.replicate 14 0))
      = 0 :=
  ⟨((dv_bt_frame_width bt_1080i50).2.2 (by decide)).1, by decide⟩

/-! ## Ioctl table -/

set_option maxRecDepth 100000 in
/-- C22: every `VIDIOC_*` definition uses the magic character `'V'`; the sequence
numbers of all `VIDIOC_*` definitions are pairwise distinct and all below
`BASE_VIDIOC_PRIVATE = 192`, so no two operations share a (magic, sequence)
pair. -/
theorem vidioc_magic_and_sequence :
    vidioc_table.length = 84 ∧
    BASE_VIDIOC_PRIVATE = 192 ∧
    (∀ r ∈ vidioc_table, r.magic = 'V' ∧ r.nr < BASE_VIDIOC_PRIVATE) ∧
    (vidioc_table.map (fun r => r.nr)).Nodup ∧
    (vidioc_table.map (fun r => (r.magic, r.nr))).Nodup ∧
    (vidioc_table.map (fun r => r.name)).Nodup := by
  refine ⟨by decide, by decide, by decide, by decide, by decide, by decide⟩

/-! ## Enumerations and flags -/

/-- Two capability flags share bits only when they are the same flag. -/
theorem cap_flags_and :
    ∀ a ∈ v4l2_cap_flags, ∀ f ∈ v4l2_cap_flags, a &&& f = if a = f then f else 0 := by
  decide

/-- Masking an OR of capability flags with one flag gives that flag when it is
in the set and zero otherwise. -/
theorem caps_or_and (flags : List Nat) (hflags : ∀ a ∈ flags, a ∈ v4l2_cap_flags)
    (f : Nat) (hf : f ∈ v4l2_cap_flags) :
    caps_or flags &&& f = if f ∈ flags then f else 0 := by
  induction flags with
  | nil => simp [caps_or]
  | cons a rest ih =>
    have ha : a ∈ v4l2_cap_flags := hflags a (List.mem_cons_self a rest)
    have hrest : ∀ b ∈ rest, b ∈ v4l2_cap_flags :=
      fun b hb => hflags b (List.mem_cons_of_mem a hb)
    have hstep : caps_or (a :: rest) = a ||| caps_or rest := rfl
    rw [hstep, Nat.and_distrib_right, ih hrest, cap_flags_and a ha f hf]
    by_cases h1 : a = f
    · have hmem : f ∈ a :: rest := by rw [h1]; exact List.mem_cons_self f rest
      rw [if_pos h1, if_pos hmem]
      split
      · exact Nat.or_self f
      · exact Nat.or_zero f
    · rw [if_neg h1, Nat.zero_or]
      by_cases h2 : f ∈ rest
      · rw [if_pos h2, if_pos (List.mem_cons_of_mem a h2)]
      · have hnot : f ∉ a :: rest := by
          intro hm
          rcases List.mem_cons.mp hm with h | h
          · exact h1 h.symm
          · exact h2 h
        rw [if_neg h2, if_neg hnot]

set_option maxRecDepth 100000 in
/-- C28: the capability flags are independent bits.  Each of the 25 `V4L2_CAP_*`
values for the `capabilities` field is a power of two below `2^32`, they are
pairwise distinct, and any set of them OR-ed together is recovered flag by flag
with bitwise AND: the AND with a flag is that flag when it is in the set and 0
when it is not. -/
theorem cap_flags_independent (flags : List Nat)
    (hflags : ∀ a ∈ flags, a ∈ v4l2_cap_flags) :
    v4l2_cap_flags.length = 25 ∧
    (∀ f ∈ v4l2_cap_flags, ∃ k, k < 32 ∧ f = 2 ^ k) ∧
    v4l2_cap_flags.Nodup ∧
    v4l2_cap_flags.Pairwise (fun x y => x &&& y = 0) ∧
    (∀ f ∈ v4l2_cap_flags, caps_or flags &&& f = if f ∈ flags then f else 0) ∧
    (∀ f ∈ v4l2_cap_flags, (caps_or flags &&& f ≠ 0 ↔ f ∈ flags)) := by
  have hpow : ∀ f ∈ v4l2_cap_flags, ∃ k, k < 32 ∧ f = 2 ^ k := by
    decide
  have hne : ∀ f ∈ v4l2_cap_flags, f ≠ 0 := by
    decide
  refine ⟨by decide, hpow, by decide, by decide, fun f hf => caps_or_and flags hflags f hf,
    fun f hf => ?_⟩
  rw [caps_or_and flags hflags f hf]
  by_cases h : f ∈ flags
  · rw [if_pos h]
    exact ⟨fun _ => h, fun _ => hne f hf⟩
  · rw [if_neg h]
    exact ⟨fun h0 => absurd rfl h0, fun hm => absurd hm h⟩

/-- The capabilities word of a streaming capture device: the three flags set are
recovered, and a flag that was not set reads as 0. -/
theorem cap_flags_independent_witness :
    caps_or [ V4L2_CAP_VIDEO_CAPTURE, V4L2_CAP_STREAMING, V4L2_CAP_DEVICE_CAPS]
      = 0x84000001 ∧
    caps_or [ V4L2_CAP_VIDEO_CAPTURE, V4L2_CAP_STREAMING, V4L2_CAP_DEVICE_CAPS]
      &&& V4L2_CAP_STREAMING = V4L2_CAP_STREAMING ∧
    caps_or [ V4L2_CAP_VIDEO_CAPTURE, V4L2_CAP_STREAMING, V4L2_CAP_DEVICE_CAPS]
      &&& V4L2_CAP_TUNER = 0 := by
  have h := (cap_flags_independent
    [ V4L2_CAP_VIDEO_CAPTURE, V4L2_CAP_STREAMING, V4L2_CAP_DEVICE_CAPS] (by decide)).2.2.2.2.1
  exact ⟨by decide, h V4L2_CAP_STREAMING (by decide), h V4L2_CAP_TUNER (by decide)⟩

/-- C29: the values of `enum v4l2_hsv_encoding` (128, 129) differ from every
value of `enum v4l2_ycbcr_encoding` (0..8), and all values of both enumerations
fit in the 8-bit `ycbcr_enc`/`hsv_enc` field of `struct v4l2_pix_format_mplane`. -/
theorem hsv_ycbcr_enc_disjoint :
    v4l2_hsv_encoding_values = [128, 129] ∧
    v4l2_ycbcr_encoding_values = List.range 9 ∧
    (∀ h ∈ v4l2_hsv_encoding_values, ∀ y ∈ v4l2_ycbcr_encoding_values, h ≠ y) ∧
    (∀ h ∈ v4l2_hsv_encoding_values, h < 2 ^ 8) ∧
    (∀ y ∈ v4l2_ycbcr_encoding_values, y < 2 ^ 8) := by
  refine ⟨by decide, by decide, by decide, by decide, by decide⟩

/-- C30: for every value `t`, `V4L2_TYPE_IS_MULTIPLANAR(t)` holds if and only if
`t` is `V4L2_BUF_TYPE_VIDEO_CAPTURE_MPLANE` (9) or
`V4L2_BUF_TYPE_VIDEO_OUTPUT_MPLANE` (10); it is false for every other enumerator
of `enum v4l2_buf_type`. -/
theorem type_is_multiplanar (t : Nat) :
    (V4L2_TYPE_IS_MULTIPLANAR t = true ↔
      t = V4L2_BUF_TYPE_VIDEO_CAPTURE_MPLANE ∨ t = V4L2_BUF_TYPE_VIDEO_OUTPUT_MPLANE) ∧
    (V4L2_TYPE_IS_MULTIPLANAR t = true ↔ t = 9 ∨ t = 10) ∧
    v4l2_buf_type_values.filter V4L2_TYPE_IS_MULTIPLANAR
      = [V4L2_BUF_TYPE_VIDEO_CAPTURE_MPLANE, V4L2_BUF_TYPE_VIDEO_OUTPUT_MPLANE] ∧
    v4l2_buf_type_values.filter (fun e => !V4L2_TYPE_IS_MULTIPLANAR e)
      = [V4L2_BUF_TYPE_VIDEO_CAPTURE, V4L2_BUF_TYPE_VIDEO_OUTPUT,
         V4L2_BUF_TYPE_VIDEO_OVERLAY, V4L2_BUF_TYPE_VBI_CAPTURE, V4L2_BUF_TYPE_VBI_OUTPUT,
         V4L2_BUF_TYPE_SLICED_VBI_CAPTURE, V4L2_BUF_TYPE_SLICED_VBI_OUTPUT,
         V4L2_BUF_TYPE_VIDEO_OUTPUT_OVERLAY, V4L2_BUF_TYPE_SDR_CAPTURE,
         V4L2_BUF_TYPE_PRIVATE] := by
  have h : V4L2_TYPE_IS_MULTIPLANAR t = true ↔
      t = V4L2_BUF_TYPE_VIDEO_CAPTURE_MPLANE ∨ t = V4L2_BUF_TYPE_VIDEO_OUTPUT_MPLANE := by
    unfold V4L2_TYPE_IS_MULTIPLANAR
    rw [Bool.or_eq_true, beq_iff_eq, beq_iff_eq]
  exact ⟨h, h, by decide, by decide⟩

/-- C31: buffer flag fields do not overlap.  The timestamp-type values (UNKNOWN,
MONOTONIC, COPY) lie inside `V4L2_BUF_FLAG_TIMESTAMP_MASK` (`0xe000`), the
timestamp-source values (EOF, SOE) lie inside `V4L2_BUF_FLAG_TSTAMP_SRC_MASK`
(`0x70000`), the two masks are disjoint, and each of the twelve single-bit
flags is a distinct power of two disjoint from both masks. -/
theorem buf_flags_disjoint :
    V4L2_BUF_FLAG_TIMESTAMP_MASK = 0xe000 ∧
    V4L2_BUF_FLAG_TSTAMP_SRC_MASK = 0x70000 ∧
    (∀ v ∈ v4l2_buf_timestamp_types, v &&& V4L2_BUF_FLAG_TIMESTAMP_MASK = v) ∧
    (∀ v ∈ v4l2_buf_tstamp_sources, v &&& V4L2_BUF_FLAG_TSTAMP_SRC_MASK = v) ∧
    V4L2_BUF_FLAG_TIMESTAMP_MASK &&& V4L2_BUF_FLAG_TSTAMP_SRC_MASK = 0 ∧
    v4l2_buf_flag_bits.length = 12 ∧
    (∀ f ∈ v4l2_buf_flag_bits, ∃ k, k < 32 ∧ f = 2 ^ k) ∧
    v4l2_buf_flag_bits.Nodup ∧
    v4l2_buf_flag_bits.Pairwise (fun x y => x &&& y = 0) ∧
    (∀ f ∈ v4l2_buf_flag_bits,
      f &&& V4L2_BUF_FLAG_TIMESTAMP_MASK = 0 ∧ f &&& V4L2_BUF_FLAG_TSTAMP_SRC_MASK = 0) := by
  refine ⟨by decide, by decide, by decide, by decide, by decide, by decide, by decide,
    by decide, by decide, by decide⟩

/-- C32: for every value `t`, `V4L2_TYPE_IS_OUTPUT(t)` holds exactly for the six
types VIDEO_OUTPUT (2), VIDEO_OVERLAY (3), VBI_OUTPUT (5), SLICED_VBI_OUTPUT (7),
VIDEO_OUTPUT_OVERLAY (8) and VIDEO_OUTPUT_MPLANE (10); it is false for every
capture type and for `V4L2_BUF_TYPE_PRIVATE`. -/
theorem type_is_output (t : Nat) :
    (V4L2_TYPE_IS_OUTPUT t = true ↔
      t = V4L2_BUF_TYPE_VIDEO_OUTPUT ∨ t = V4L2_BUF_TYPE_VIDEO_OVERLAY ∨
      t = V4L2_BUF_TYPE_VBI_OUTPUT ∨ t = V4L2_BUF_TYPE_SLICED_VBI_OUTPUT ∨
      t = V4L2_BUF_TYPE_VIDEO_OUTPUT_OVERLAY ∨ t = V4L2_BUF_TYPE_VIDEO_OUTPUT_MPLANE) ∧
    (V4L2_TYPE_IS_OUTPUT t = true ↔ t = 2 ∨ t = 3 ∨ t = 5 ∨ t = 7 ∨ t = 8 ∨ t = 10) ∧
    v4l2_buf_type_values.filter V4L2_TYPE_IS_OUTPUT
      = [V4L2_BUF_TYPE_VIDEO_OUTPUT, V4L2_BUF_TYPE_VIDEO_OVERLAY, V4L2_BUF_TYPE_VBI_OUTPUT,
         V4L2_BUF_TYPE_SLICED_VBI_OUTPUT, V4L2_BUF_TYPE_VIDEO_OUTPUT_OVERLAY,
         V4L2_BUF_TYPE_VIDEO_OUTPUT_MPLANE] ∧
    V4L2_TYPE_IS_OUTPUT V4L2_BUF_TYPE_VIDEO_CAPTURE = false ∧
    V4L2_TYPE_IS_OUTPUT V4L2_BUF_TYPE_VBI_CAPTURE = false ∧
    V4L2_TYPE_IS_OUTPUT V4L2_BUF_TYPE_SLICED_VBI_CAPTURE = false ∧
    V4L2_TYPE_IS_OUTPUT V4L2_BUF_TYPE_VIDEO_CAPTURE_MPLANE = false ∧
    V4L2_TYPE_IS_OUTPUT V4L2_BUF_TYPE_SDR_CAPTURE = false ∧
    V4L2_TYPE_IS_OUTPUT V4L2_BUF_TYPE_PRIVATE = false := by
  have h : V4L2_TYPE_IS_OUTPUT t = true ↔
      t = V4L2_BUF_TYPE_VIDEO_OUTPUT ∨ t = V4L2_BUF_TYPE_VIDEO_OVERLAY ∨
      t = V4L2_BUF_TYPE_VBI_OUTPUT ∨ t = V4L2_BUF_TYPE_SLICED_VBI_OUTPUT ∨
      t = V4L2_BUF_TYPE_VIDEO_OUTPUT_OVERLAY ∨ t = V4L2_BUF_TYPE_VIDEO_OUTPUT_MPLANE := by
    unfold V4L2_TYPE_IS_OUTPUT
    simp only [Bool.or_eq_true, beq_iff_eq]
    tauto
  exact ⟨h, h, by decide, by decide, by decide, by decide, by decide, by decide, by decide⟩

/-- C33: for every field value `f`, `V4L2_FIELD_HAS_BOTH(f)` holds if and only if
both `V4L2_FIELD_HAS_TOP(f)` and `V4L2_FIELD_HAS_BOTTOM(f)` hold. -/
theorem field_has_both_iff (f : Nat) :
    V4L2_FIELD_HAS_BOTH f = true ↔
      (V4L2_FIELD_HAS_TOP f = true ∧ V4L2_FIELD_HAS_BOTTOM f = true) := by
  unfold V4L2_FIELD_HAS_BOTH V4L2_FIELD_HAS_TOP V4L2_FIELD_HAS_BOTTOM
  simp only [Bool.or_eq_true, beq_iff_eq]
  have htb : V4L2_FIELD_TOP ≠ V4L2_FIELD_BOTTOM := by decide
  constructor
  · intro h
    exact ⟨by tauto, by tauto⟩
  · rintro ⟨h1, h2⟩
    rcases h1 with ((((h1 | h1) | h1) | h1) | h1) | h1
    · rcases h2 with ((((h2 | h2) | h2) | h2) | h2) | h2
      · exact absurd (h1.symm.trans h2) htb
      all_goals tauto
    all_goals tauto

/-- C34: for every field value `f`, `V4L2_FIELD_HAS_T_OR_B(f)` holds exactly for
TOP, BOTTOM and ALTERNATE and never together with `V4L2_FIELD_HAS_BOTH(f)`;
`V4L2_FIELD_ALTERNATE` satisfies HAS_T_OR_B and neither HAS_TOP nor HAS_BOTTOM;
`V4L2_FIELD_ANY` and `V4L2_FIELD_NONE` satisfy none of the four predicates. -/
theorem field_has_t_or_b (f : Nat) :
    (V4L2_FIELD_HAS_T_OR_B f = true ↔
      f = V4L2_FIELD_TOP ∨ f = V4L2_FIELD_BOTTOM ∨ f = V4L2_FIELD_ALTERNATE) ∧
    ¬(V4L2_FIELD_HAS_T_OR_B f = true ∧ V4L2_FIELD_HAS_BOTH f = true) ∧
    (V4L2_FIELD_HAS_T_OR_B V4L2_FIELD_ALTERNATE = true ∧
      V4L2_FIELD_HAS_TOP V4L2_FIELD_ALTERNATE = false ∧
      V4L2_FIELD_HAS_BOTTOM V4L2_FIELD_ALTERNATE = false) ∧
    (V4L2_FIELD_HAS_TOP V4L2_FIELD_ANY = false ∧
      V4L2_FIELD_HAS_BOTTOM V4L2_FIELD_ANY = false ∧
      V4L2_FIELD_HAS_BOTH V4L2_FIELD_ANY = false ∧
      V4L2_FIELD_HAS_T_OR_B V4L2_FIELD_ANY = false) ∧
    (V4L2_FIELD_HAS_TOP V4L2_FIELD_NONE = false ∧
      V4L2_FIELD_HAS_BOTTOM V4L2_FIELD_NONE = false ∧
      V4L2_FIELD_HAS_BOTH V4L2_FIELD_NONE = false ∧
      V4L2_FIELD_HAS_T_OR_B V4L2_FIELD_NONE = false) := by
  have h : V4L2_FIELD_HAS_T_OR_B f = true ↔
      f = V4L2_FIELD_TOP ∨ f = V4L2_FIELD_BOTTOM ∨ f = V4L2_FIELD_ALTERNATE := by
    unfold V4L2_FIELD_HAS_T_OR_B
    simp only [Bool.or_eq_true, beq_iff_eq]
    tauto
  refine ⟨h, ?_, by decide, by decide, by decide⟩
  rintro ⟨h1, h2⟩
  rcases h.mp h1 with h1 | h1 | h1 <;> rw [h1] at h2 <;> exact absurd h2 (by decide)

/-! ## Distinctness of FOURCC codes -/

set_option maxRecDepth 100000 in
/-- C35: all `V4L2_PIX_FMT_*` and `V4L2_SDR_FMT_*` codes of the table are pairwise
distinct 32-bit values, each big-endian code differing from its little-endian
counterpart, so a raw 32-bit format value identifies at most one table row. -/
theorem fourcc_table_distinct :
    (fourcc_table.map FourccDef.code).Nodup ∧
    (∀ f ∈ fourcc_table, f.code < 2 ^ 32) ∧
    (∀ f ∈ fourcc_table, ∀ g ∈ fourcc_table, f.code = g.code → f = g) ∧
    V4L2_PIX_FMT_ARGB555X ≠ V4L2_PIX_FMT_ARGB555 ∧
    V4L2_PIX_FMT_XRGB555X ≠ V4L2_PIX_FMT_XRGB555 ∧
    V4L2_PIX_FMT_Y16_BE ≠ V4L2_PIX_FMT_Y16 ∧
    V4L2_PIX_FMT_QTEC_GREEN16_BE ≠ V4L2_PIX_FMT_QTEC_GREEN16 := by
  refine ⟨by decide, by decide, by decide, by decide, by decide, by decide, by decide⟩

/-- C36: `v4l2_fourcc` is injective on 4-tuples of bytes, and a code built by
`v4l2_fourcc` from a 7-bit last character never equals a code built by
`v4l2_fourcc_be` from bytes; in particular the two constructors never collide on
7-bit characters. -/
theorem v4l2_fourcc_injective (a b c d a' b' c' d' : Nat)
    (ha : a < 256) (hb : b < 256) (hc : c < 256) (hd : d < 256)
    (ha' : a' < 256) (hb' : b' < 256) (hc' : c' < 256) (hd' : d' < 256) :
    (v4l2_fourcc a b c d = v4l2_fourcc a' b' c' d' →
      a = a' ∧ b = b' ∧ c = c' ∧ d = d') ∧
    (d < 128 → v4l2_fourcc a b c d ≠ v4l2_fourcc_be a' b' c' d') ∧
    (a < 128 → b < 128 → c < 128 → d < 128 → a' < 128 → b' < 128 → c' < 128 → d' < 128 →
      v4l2_fourcc a b c d ≠ v4l2_fourcc_be a' b' c' d') := by
  have hs := v4l2_fourcc_eq_sum ha hb hc hd
  have hs' := v4l2_fourcc_eq_sum ha' hb' hc' hd'
  have hbe := v4l2_fourcc_be_eq_sum ha' hb' hc' hd'
  have hne : d < 128 → v4l2_fourcc a b c d ≠ v4l2_fourcc_be a' b' c' d' := by
    intro h heq
    rw [hs, hbe] at heq
    split at heq <;> omega
  refine ⟨fun h => ?_, hne, fun _ _ _ h _ _ _ _ => hne h⟩
  rw [hs, hs'] at h
  omega

/-- Injectivity and non-collision at the bytes of `'Y' '1' '6' ' '`: the code of
`V4L2_PIX_FMT_Y16` differs from the code of `V4L2_PIX_FMT_Y16_BE`. -/
theorem v4l2_fourcc_injective_witness :
    v4l2_fourcc 0x59 0x31 0x36 0x20 ≠ v4l2_fourcc_be 0x59 0x31 0x36 0x20 :=
  (v4l2_fourcc_injective 0x59 0x31 0x36 0x20 0x59 0x31 0x36 0x20 (by decide) (by decide)
    (by decide) (by decide) (by decide) (by decide) (by decide) (by decide)).2.1 (by decide)

/-! ## Record layouts -/

set_option maxRecDepth 100000 in
/-- C24: `struct v4l2_pix_format` is exactly 48 bytes with no padding: its twelve
32-bit members sit at byte offsets width 0, height 4, pixelformat 8, field 12,
bytesperline 16, sizeimage 20, colorspace 24, priv 28, flags 32, ycbcr_enc 36,
quantization 40, xfer_func 44, and hsv_enc shares offset 36 with ycbcr_enc.
This holds for every data model of `abi_list`. -/
theorem pix_format_layout (abi : Abi) (habi : abi ∈ abi_list) :
    (v4l2_pix_format abi).size = 48 ∧
    (v4l2_pix_format abi).payload = 48 ∧
    (v4l2_pix_format abi).members.map (fun m => m.type.size)
      = [4, 4, 4, 4, 4, 4, 4, 4, 4, 4, 4, 4] ∧
    (v4l2_pix_format abi).offsets
      = [("width", 0), ("height", 4), ("pixelformat", 8), ("field", 12),
         ("bytesperline", 16), ("sizeimage", 20), ("colorspace", 24), ("priv", 28),
         ("flags", 32), ("ycbcr_enc", 36), ("hsv_enc", 36), ("quantization", 40),
         ("xfer_func", 44)] ∧
    (v4l2_pix_format abi).offsetof "ycbcr_enc" = some 36 ∧
    (v4l2_pix_format abi).offsetof "hsv_enc" = some 36 := by
  revert abi
  decide

/-- The layout of `struct v4l2_pix_format` on the 32-bit and the 64-bit target. -/
theorem pix_format_layout_witness :
    (v4l2_pix_format abi_ilp32).size = 48 ∧ (v4l2_pix_format abi_lp64).size = 48 ∧
    (v4l2_pix_format abi_lp64).offsetof "xfer_func" = some 44 :=
  ⟨(pix_format_layout abi_ilp32 (by decide)).1, (pix_format_layout abi_lp64 (by decide)).1,
    by decide⟩

set_option maxRecDepth 100000 in
/-- C25: `struct v4l2_selection` has a total size of exactly 64 bytes: type,
target, flags, the 16-byte rect `r`, rectangles, then the 32-byte `reserved`/`pr`
union, with 4-byte and with 8-byte pointers alike, and without padding. -/
theorem selection_layout (abi : Abi) (habi : abi ∈ abi_list) :
    (v4l2_selection abi).size = 64 ∧
    (v4l2_selection abi).payload = 64 ∧
    (v4l2_rect abi).size = 16 ∧
    (v4l2_selection abi).members.map (fun m => m.type.size) = [4, 4, 4, 16, 4, 32] ∧
    (v4l2_selection abi).offsets
      = [("type", 0), ("target", 4), ("flags", 8), ("r", 12), ("rectangles", 28),
         ("reserved", 32), ("pr", 32)] := by
  revert abi
  decide

/-- The size of `struct v4l2_selection` with 4-byte and with 8-byte pointers. -/
theorem selection_layout_witness :
    abi_ilp32.ptr_size = 4 ∧ (v4l2_selection abi_ilp32).size = 64 ∧
    abi_lp64.ptr_size = 8 ∧ (v4l2_selection abi_lp64).size = 64 :=
  ⟨rfl, (selection_layout abi_ilp32 (by decide)).1, rfl,
    (selection_layout abi_lp64 (by decide)).1⟩

set_option maxRecDepth 100000 in
/-- C26: in `struct v4l2_format` the `fmt` union is exactly 200 bytes.  Every
typed member is no larger than the `raw_data[200]` placeholder: pix is 48 bytes,
pix_mp 192, win at most 56, vbi 44, sliced 112 (with 4-byte alignment of 32-bit
integers, and never more), sdr 32; this holds with 4-byte and with 8-byte
pointers, so the size of the union is that of `raw_data` and the record is the
offset of `fmt` plus 200 bytes whichever member is selected. -/
theorem format_union_layout (abi : Abi) (habi : abi ∈ abi_list) :
    (v4l2_format_fmt abi).size = 200 ∧
    (v4l2_format_fmt abi).size = (array_of uint8_t 200).size ∧
    (∀ m ∈ v4l2_format_fmt_members abi, m.2.size ≤ 200) ∧
    (v4l2_format_fmt_members abi).map (fun m => m.1)
      = ["pix", "pix_mp", "win", "vbi", "sliced", "sdr", "raw_data"] ∧
    (v4l2_pix_format abi).size = 48 ∧
    (v4l2_pix_format_mplane abi).size = 192 ∧
    (v4l2_window abi).size ≤ 56 ∧
    (v4l2_vbi_format abi).size = 44 ∧
    (v4l2_sliced_vbi_format abi).size ≤ 112 ∧
    (abi.align32 = 4 → (v4l2_sliced_vbi_format abi).size = 112) ∧
    (v4l2_sdr_format abi).size = 32 ∧
    (∀ o, (v4l2_format abi).offsetof "fmt" = some o → (v4l2_format abi).size = o + 200) := by
  revert abi
  decide

/-- The members of the `fmt` union on the 32-bit and the 64-bit target: the
window is 40 bytes with 4-byte pointers and 56 bytes with 8-byte pointers, and the
union is 200 bytes on both. -/
theorem format_union_layout_witness :
    (v4l2_window abi_ilp32).size = 40 ∧ (v4l2_window abi_lp64).size = 56 ∧
    (v4l2_sliced_vbi_format abi_lp64).size = 112 ∧
    (v4l2_format_fmt abi_ilp32).size = 200 ∧ (v4l2_format_fmt abi_lp64).size = 200 ∧
    (v4l2_format abi_ilp32).size = 204 ∧ (v4l2_format abi_lp64).size = 208 :=
  ⟨by decide, by decide,
    (format_union_layout abi_lp64 (by decide)).2.2.2.2.2.2.2.2.2.1 rfl,
    (format_union_layout abi_ilp32 (by decide)).1,
    (format_union_layout abi_lp64 (by decide)).1, by decide, by decide⟩

set_option maxRecDepth 100000 in
/-- C27: `struct v4l2_pix_format_mplane` is packed with no padding and bounds the
plane count by `VIDEO_MAX_PLANES = 8`: `plane_fmt` holds exactly 8 entries of the
20-byte packed `struct v4l2_plane_pix_format` starting at offset 20, `num_planes`
is the byte at offset 180, and the whole structure is 192 bytes. -/
theorem pix_format_mplane_layout (abi : Abi) (habi : abi ∈ abi_list) :
    VIDEO_MAX_PLANES = 8 ∧
    (v4l2_plane_pix_format abi).packed = true ∧
    (v4l2_plane_pix_format abi).size = 20 ∧
    (v4l2_plane_pix_format abi).payload = 20 ∧
    (v4l2_pix_format_mplane abi).packed = true ∧
    (v4l2_pix_format_mplane abi).size = 192 ∧
    (v4l2_pix_format_mplane abi).payload = 192 ∧
    (v4l2_pix_format_mplane abi).members.map (fun m => m.type.size)
      = [4, 4, 4, 4, 4, 8 * 20, 1, 1, 1, 1, 1, 7] ∧
    (v4l2_pix_format_mplane abi).offsets
      = [("width", 0), ("height", 4), ("pixelformat", 8), ("field", 12),
         ("colorspace", 16), ("plane_fmt", 20), ("num_planes", 180), ("flags", 181),
         ("ycbcr_enc", 182), ("hsv_enc", 182), ("quantization", 183),
         ("xfer_func", 184), ("reserved", 185)] ∧
    (v4l2_pix_format_mplane abi).offsetof "plane_fmt" = some 20 ∧
    (v4l2_pix_format_mplane abi).offsetof "num_planes" = some 180 := by
  revert abi
  decide

/-- The layout of `struct v4l2_pix_format_mplane` on the 32-bit and the 64-bit
target. -/
theorem pix_format_mplane_layout_witness :
    (v4l2_pix_format_mplane abi_ilp32).size = 192 ∧
    (v4l2_pix_format_mplane abi_lp64).size = 192 ∧
    (v4l2_pix_format_mplane abi_lp64).offsetof "num_planes" = some 180 :=
  ⟨(pix_format_mplane_layout abi_ilp32 (by decide)).2.2.2.2.2.1,
    (pix_format_mplane_layout abi_lp64 (by decide)).2.2.2.2.2.1,
    (pix_format_mplane_layout abi_lp64 (by decide)).2.2.2.2.2.2.2.2.2.2⟩

end V4l2
